import Mathlib

/-!
Shallow embedding of the formflow-api worker (TypeScript, Hono on Cloudflare
Workers) for specification checking.

Conventions of the embedding:
* JSON values are modelled by the inductive `Json`; JS numbers (IEEE doubles)
  are modelled by `Rat`, which represents every JSON numeric literal exactly.
* JS objects are association lists in insertion order; property access is
  first-match lookup (JS object keys are unique), property assignment is
  `mapSetJson` (update in place or append, like `Map.set`).
* `undefined` is `Option.none`; JSON `null` is `Json.null`.
* Host functions that the worker calls but does not define (JS `Number()`
  coercion, `Date.parse`, `RegExp` compilation/testing, `new URL`,
  `JSON.parse`) are collected in the oracle record `JsPrims`; every theorem
  quantifies over the oracle, and concrete witnesses instantiate it with
  `defaultPrims`, whose table entries agree with the real host functions on
  the inputs used.
* External collaborators (Supabase RPCs and tables, the Stripe API) are
  modelled as explicit inputs: request environments carry the results the
  collaborator would return, and database state is passed functionally.
-/

/-- JSON value, as produced by the JS JSON parser: numbers are IEEE doubles,
here modelled by `Rat` (exact for every JSON literal the claims touch). -/
inductive Json where
  | null : Json
  | bool (b : Bool) : Json
  | num (q : Rat) : Json
  | str (s : String) : Json
  | arr (elems : List Json) : Json
  | obj (fields : List (String × Json)) : Json

mutual

/-- Structural equality of JSON values.  The source compares values with
`JSON.stringify(a) === JSON.stringify(b)`; for values that came out of
`JSON.parse` (insertion order preserved, no `undefined`) that is exactly
structural equality including object key order, which this computes. -/
def Json.beq : Json → Json → Bool
  | .null, .null => true
  | .bool a, .bool b => a == b
  | .num a, .num b => a == b
  | .str a, .str b => a == b
  | .arr a, .arr b => Json.beqArr a b
  | .obj a, .obj b => Json.beqObj a b
  | _, _ => false

def Json.beqArr : List Json → List Json → Bool
  | [], [] => true
  | x :: xs, y :: ys => Json.beq x y && Json.beqArr xs ys
  | _, _ => false

def Json.beqObj : List (String × Json) → List (String × Json) → Bool
  | [], [] => true
  | (k, v) :: xs, (k₂, v₂) :: ys => k == k₂ && Json.beq v v₂ && Json.beqObj xs ys
  | _, _ => false

end

instance : BEq Json := ⟨Json.beq⟩

/-- First-match association-list lookup: JS property access `o[k]` for an
object with (unique) keys in insertion order. -/
def jLookup : List (String × Json) → String → Option Json
  | [], _ => none
  | (k, v) :: rest, key => if k == key then some v else jLookup rest key

/-- Property access on an arbitrary value (`v?.[k]` — non-objects give
`undefined`). -/
def jGetOpt (v : Json) (key : String) : Option Json :=
  match v with
  | .obj fields => jLookup fields key
  | _ => none

/-- JS object assignment `o[k] = v`: update the existing key in place or
append a new one (the `Map.set` discipline the source relies on). -/
def mapSetJson : List (String × Json) → String → Json → List (String × Json)
  | [], key, v => [(key, v)]
  | (k, w) :: rest, key, v =>
    if k == key then (key, v) :: rest else (k, w) :: mapSetJson rest key v

/-- `Map.set` on the boolean visibility map. -/
def mapSetBool : List (String × Bool) → String → Bool → List (String × Bool)
  | [], key, v => [(key, v)]
  | (k, w) :: rest, key, v =>
    if k == key then (key, v) :: rest else (k, w) :: mapSetBool rest key v

/-- `Map.get` on the visibility map (`undefined` when absent). -/
def visGet : List (String × Bool) → String → Option Bool
  | [], _ => none
  | (k, v) :: rest, key => if k == key then some v else visGet rest key

/-- String trim over the character list (JS `String.prototype.trim`,
whitespace approximated by `Char.isWhitespace`); structurally recursive so
that concrete witnesses reduce in the kernel. -/
def sTrim (s : String) : String :=
  ⟨((s.data.dropWhile Char.isWhitespace).reverse.dropWhile Char.isWhitespace).reverse⟩

/-- Lower-casing over the character list (JS `toLowerCase` on ASCII). -/
def sToLower (s : String) : String :=
  ⟨s.data.map Char.toLower⟩

/-- `String.startsWith` over the character list. -/
def sStartsWith (s pre : String) : Bool :=
  pre.data.isPrefixOf s.data

/-- Splitting worker with explicit fuel (the fuel is the list length, so the
zero-fuel case is unreachable); mirrors `String.splitOn` / JS `split`. -/
def splitOnListAux (sep : List Char) : Nat → List Char → List Char → List (List Char)
  | _, current, [] => [current.reverse]
  | 0, current, rest => [current.reverse ++ rest]
  | Nat.succ fuel, current, c :: cs =>
    if sep.isPrefixOf (c :: cs) then
      current.reverse :: splitOnListAux sep fuel [] (List.drop sep.length (c :: cs))
    else splitOnListAux sep fuel (c :: current) cs

/-- `String.splitOn` over character lists. -/
def sSplitOn (s sep : String) : List String :=
  if sep.data.isEmpty then [s]
  else (splitOnListAux sep.data s.data.length [] s.data).map (fun l => ⟨l⟩)

/-- Source `readFirstDefined`: first alias whose property is not undefined. -/
def readFirstDefined (source : List (String × Json)) : List String → Option Json
  | [] => none
  | alias₀ :: rest =>
    match jLookup source alias₀ with
    | some v => some v
    | none => readFirstDefined source rest

/-- Source `readAliasString`: the first defined alias, provided it is a
string with non-empty trim; the trimmed string is returned. -/
def readAliasString (source : List (String × Json)) (aliases : List String) : Option String :=
  match readFirstDefined source aliases with
  | some (.str s) => if (sTrim s).length > 0 then some (sTrim s) else none
  | _ => none

/-- Source `isRecord`: a plain object (not null, not an array). -/
def isRecord : Json → Bool
  | .obj _ => true
  | _ => false

/-- Source `isPrimitiveValue`: string, number or boolean. -/
def isPrimitiveValue : Json → Bool
  | .str _ => true
  | .num _ => true
  | .bool _ => true
  | _ => false

/-- JS `haystack.includes(needle)` on strings. -/
def jsIncludes (haystack needle : String) : Bool :=
  needle.data.isEmpty || (sSplitOn haystack needle).length > 1

/-- Host-environment oracle: the JS built-ins the worker calls but does not
define.  Theorems quantify over this record; `defaultPrims` instantiates it
for witnesses with values matching the real built-ins on the inputs used. -/
structure JsPrims where
  /-- `Number(v)` when the result is finite; `none` models NaN/±Infinity. -/
  toNumber : Option Json → Option Rat
  /-- `Date.parse s` in milliseconds; `none` models NaN. -/
  dateParse : String → Option Int
  /-- whether `new RegExp p` succeeds. -/
  regexCompiles : String → Bool
  /-- `new RegExp p |>.test s`. -/
  regexTest : String → String → Bool
  /-- whether `new URL s` succeeds. -/
  urlValid : String → Bool
  /-- `JSON.parse s` when it succeeds. -/
  jsonParse : String → Option Json

/-- Source `isPresent`: null/undefined, whitespace-only strings and empty
arrays count as absent. -/
def isPresent : Option Json → Bool
  | none => false
  | some .null => false
  | some (.str s) => !((sTrim s).length == 0)
  | some (.arr xs) => !xs.isEmpty
  | some _ => true

/-- Source `areEqual`: `JSON.stringify` equality, i.e. structural equality
for parsed-JSON values (`none` models `undefined`, equal only to itself). -/
def areEqual (left right : Option Json) : Bool :=
  match left, right with
  | none, none => true
  | some a, some b => Json.beq a b
  | _, _ => false

/-- `typeof v === 'number' ? v : Number(v)`, keeping only finite results. -/
def jsNumberOf (P : JsPrims) (v : Option Json) : Option Rat :=
  match v with
  | some (.num q) => some q
  | _ => P.toNumber v

/-- Three-way comparison on `Rat`. -/
def ratCompare (a b : Rat) : Ordering :=
  if a < b then .lt else if b < a then .gt else .eq

/-- Three-way comparison on `Int`. -/
def intCompare (a b : Int) : Ordering :=
  if a < b then .lt else if b < a then .gt else .eq

/-- Source `compareOrdered`: numeric comparison when both sides coerce to
finite numbers, else `Date.parse` comparison when both are strings, else
incomparable. -/
def compareOrdered (P : JsPrims) (left right : Option Json) : Option Ordering :=
  match jsNumberOf P left, jsNumberOf P right with
  | some a, some b => some (ratCompare a b)
  | _, _ =>
    match left, right with
    | some (.str a), some (.str b) =>
      match P.dateParse a, P.dateParse b with
      | some x, some y => some (intCompare x y)
      | _, _ => none
    | _, _ => none

/-- Normalized field definition produced by the schema contract parser.
`pattern` keeps the raw (compilable) regex source; `options` keeps the
extracted primitive option values. -/
structure NormalizedFieldDefinition where
  id : String
  type : String
  defaultVisible : Bool
  required : Bool
  min : Option Rat
  max : Option Rat
  minLength : Option Rat
  maxLength : Option Rat
  pattern : Option String
  options : Option (List Json)

/-- Normalized logic condition (`value = none` models `undefined`, possible
for exists/not_exists). -/
structure NormalizedCondition where
  fieldId : String
  operator : String
  value : Option Json

/-- Normalized logic action; `actionType` is `"show"` or `"hide"`. -/
structure NormalizedAction where
  actionType : String
  targetFieldId : String

/-- Normalized logic rule; `mode` is `"all"` or `"any"`. -/
structure NormalizedRule where
  mode : String
  conditions : List NormalizedCondition
  actions : List NormalizedAction

/-- Normalized contract: the field registry in insertion order plus the rule
list in declared order. -/
structure NormalizedContract where
  fields : List NormalizedFieldDefinition
  rules : List NormalizedRule

/-- `contract.fields.has fieldId` on the registry. -/
def fieldsHas (contract : NormalizedContract) (fieldId : String) : Bool :=
  contract.fields.any (fun f => f.id == fieldId)

/-- Source `evaluateCondition`. -/
def evaluateCondition (P : JsPrims) (condition : NormalizedCondition)
    (submittedData : List (String × Json)) : Bool :=
  let actualValue := jLookup submittedData condition.fieldId
  match condition.operator with
  | "eq" => areEqual actualValue condition.value
  | "neq" => !areEqual actualValue condition.value
  | "in" =>
    match condition.value with
    | some (.arr entries) => entries.any (fun entry => areEqual actualValue (some entry))
    | _ => false
  | "not_in" =>
    match condition.value with
    | some (.arr entries) => !entries.any (fun entry => areEqual actualValue (some entry))
    | _ => false
  | "gt" =>
    match compareOrdered P actualValue condition.value with
    | some c => c == .gt
    | none => false
  | "gte" =>
    match compareOrdered P actualValue condition.value with
    | some c => c == .gt || c == .eq
    | none => false
  | "lt" =>
    match compareOrdered P actualValue condition.value with
    | some c => c == .lt
    | none => false
  | "lte" =>
    match compareOrdered P actualValue condition.value with
    | some c => c == .lt || c == .eq
    | none => false
  | "contains" =>
    match actualValue, condition.value with
    | some (.str s), some (.str t) => jsIncludes s t
    | some (.arr xs), _ => xs.any (fun entry => areEqual (some entry) condition.value)
    | _, _ => false
  | "not_contains" =>
    match actualValue, condition.value with
    | some (.str s), some (.str t) => !jsIncludes s t
    | some (.arr xs), _ => !xs.any (fun entry => areEqual (some entry) condition.value)
    | _, _ => true
  | "exists" => isPresent actualValue
  | "not_exists" => !isPresent actualValue
  | _ => false

/-- Source `evaluateVisibility`: initialize every field to its
`defaultVisible`, then apply matched rules in declared order, later actions
overwriting earlier visibility. -/
def evaluateVisibility (P : JsPrims) (contract : NormalizedContract)
    (submittedData : List (String × Json)) : List (String × Bool) :=
  let init := contract.fields.foldl (fun m f => mapSetBool m f.id f.defaultVisible) []
  contract.rules.foldl
    (fun m rule =>
      let matched :=
        if rule.mode == "all" then
          rule.conditions.all (fun c => evaluateCondition P c submittedData)
        else
          rule.conditions.any (fun c => evaluateCondition P c submittedData)
      if matched then
        rule.actions.foldl
          (fun m₂ a => mapSetBool m₂ a.targetFieldId (a.actionType == "show")) m
      else m)
    init

/-- JS `typeof` tag for a JSON value (`typeof null` is `"object"`). -/
def typeofJson : Json → String
  | .str _ => "string"
  | .num _ => "number"
  | .bool _ => "boolean"
  | _ => "object"

/-- JS `String(v)` for primitive values (all the parser stores as options).
Rationals are rendered injectively; since the canonical key also carries the
`typeof` tag, membership below coincides with the source's string-keyed set
membership. -/
def jsStringOf : Json → String
  | .str s => s
  | .num q => if q.den == 1 then toString q.num else toString q.num ++ "/" ++ toString q.den
  | .bool b => if b then "true" else "false"
  | .null => "null"
  | _ => ""

/-- The canonical option key the source builds: `typeof entry + ":" + String(entry)`. -/
def canonKey (v : Json) : String :=
  typeofJson v ++ ":" ++ jsStringOf v

/-- Source `optionSetFromField` membership test (set of canonical keys). -/
def optionKeys (field : NormalizedFieldDefinition) : Option (List String) :=
  match field.options with
  | none => none
  | some opts => some (opts.map canonKey)

/-- Email pattern without whitespace: the source regex is
`[^\s@]+@[^\s@]+\.[^\s@]+` anchored on both sides. -/
def jsEmailTest (s : String) : Bool :=
  match sSplitOn s "@" with
  | [localPart, domain] =>
    !localPart.data.isEmpty
      && !(localPart.toList.any Char.isWhitespace)
      && !(domain.toList.any Char.isWhitespace)
      && (((domain.toList.drop 1).dropLast).any (fun c => c == '.'))
  | _ => false

/-- The `YYYY-MM-DD` pattern `\d{4}-\d{2}-\d{2}` anchored. -/
def jsDateFormatTest (s : String) : Bool :=
  match s.toList with
  | [y₁, y₂, y₃, y₄, d₁, m₁, m₂, d₂, a₁, a₂] =>
    y₁.isDigit && y₂.isDigit && y₃.isDigit && y₄.isDigit
      && d₁ == '-' && m₁.isDigit && m₂.isDigit && d₂ == '-' && a₁.isDigit && a₂.isDigit
  | _ => false

/-- The `([01]\d|2[0-3]):[0-5]\d(:[0-5]\d)?` time pattern anchored. -/
def jsTimeFormatTest (s : String) : Bool :=
  let hourOk := fun (h₁ h₂ : Char) =>
    ((h₁ == '0' || h₁ == '1') && h₂.isDigit) || (h₁ == '2' && ('0' ≤ h₂ && h₂ ≤ '3'))
  let minOk := fun (m₁ m₂ : Char) => ('0' ≤ m₁ && m₁ ≤ '5') && m₂.isDigit
  match s.toList with
  | [h₁, h₂, c₁, m₁, m₂] => hourOk h₁ h₂ && c₁ == ':' && minOk m₁ m₂
  | [h₁, h₂, c₁, m₁, m₂, c₂, s₁, s₂] =>
    hourOk h₁ h₂ && c₁ == ':' && minOk m₁ m₂ && c₂ == ':' && minOk s₁ s₂
  | _ => false

/-- Membership check for multiselect items; returns the first error message. -/
def multiselectItemsCheck (keys : List String) : List Json → Option String
  | [] => none
  | item :: rest =>
    if !isPrimitiveValue item then some "array values must be primitive"
    else if !keys.contains (canonKey item) then some "contains values outside allowed options"
    else multiselectItemsCheck keys rest

/-- Source `validateFieldValue`: type-specific validation of a present value;
`none` means valid, `some msg` is the error message. -/
def validateFieldValue (P : JsPrims) (field : NormalizedFieldDefinition)
    (value : Option Json) : Option String :=
  if ["text", "textarea", "tel", "date", "datetime", "time", "email", "url"].contains field.type then
    match value with
    | some (.str s) =>
      if field.type == "email" && !jsEmailTest s then some "must be a valid email"
      else if field.type == "url" && !P.urlValid s then some "must be a valid URL"
      else if field.type == "date" && !jsDateFormatTest s then some "must be in YYYY-MM-DD format"
      else if field.type == "datetime" && (P.dateParse s).isNone then
        some "must be a valid ISO datetime string"
      else if field.type == "time" && !jsTimeFormatTest s then
        some "must be in HH:mm or HH:mm:ss format"
      else if (match field.minLength with
               | some m => decide ((s.length : Rat) < m)
               | none => false) then
        some "must have too few characters"
      else if (match field.maxLength with
               | some m => decide (m < (s.length : Rat))
               | none => false) then
        some "must have too many characters"
      else if (match field.pattern with
               | some p => !P.regexTest p s
               | none => false) then
        some "does not match required pattern"
      else none
    | _ => some "must be a string"
  else if field.type == "number" || field.type == "rating" then
    match value with
    | some (.num q) =>
      if field.type == "rating" && !(q.den == 1) then some "must be an integer"
      else if (match field.min with
               | some m => decide (q < m)
               | none => false) then
        some "must be below the minimum"
      else if (match field.max with
               | some m => decide (m < q)
               | none => false) then
        some "must be above the maximum"
      else none
    | _ => some "must be a valid number"
  else if field.type == "checkbox" || field.type == "boolean" then
    match value with
    | some (.bool b) =>
      if field.type == "checkbox" && field.required && !(b == true) then some "must be checked"
      else none
    | _ => some "must be a boolean"
  else if field.type == "radio" || field.type == "select" then
    match value with
    | some v =>
      if !isPrimitiveValue v then some "must be a primitive value"
      else
        match optionKeys field with
        | none => some "requires configured options"
        | some keys =>
          if keys.contains (canonKey v) then none
          else some "must match one of the allowed options"
    | none => some "must be a primitive value"
  else if field.type == "multiselect" then
    match value with
    | some (.arr items) =>
      (match optionKeys field with
       | none => some "requires configured options"
       | some keys =>
         match multiselectItemsCheck keys items with
         | some msg => some msg
         | none =>
           if (match field.min with
               | some m => decide ((items.length : Rat) < m)
               | none => false) then
             some "must include too few options"
           else if (match field.max with
                    | some m => decide (m < (items.length : Rat))
                    | none => false) then
             some "must include too many options"
           else none)
    | _ => some "must be an array"
  else some "has unsupported field type"

/-- One entry of the validation issue list (`{field_id, message}`). -/
structure ValidationIssue where
  field_id : String
  message : String
deriving DecidableEq

/-- The 422 `FIELD_VALIDATION_FAILED` payload shape produced by
`sanitizeAndValidateData` (with `unknown_fields` present only on the
unknown-key path, as in the source). -/
structure FieldValidationFailurePayload where
  error : String
  code : String
  unknown_fields : Option (List String)
  issues : List ValidationIssue

/-- Result of `sanitizeAndValidateData`. -/
inductive SanitizeResult where
  | fail (payload : FieldValidationFailurePayload)
  | ok (sanitizedData : List (String × Json))

/-- The first loop of `sanitizeAndValidateData` over `Object.entries(inputData)`:
collect unknown keys, drop invisible keys, copy visible registered entries. -/
def sanitizeScan (contract : NormalizedContract) (visibility : List (String × Bool)) :
    List (String × Json) → List String × List (String × Json) →
    List String × List (String × Json)
  | [], acc => acc
  | (fieldId, submittedValue) :: rest, (unknownFields, sanitizedData) =>
    if !fieldsHas contract fieldId then
      sanitizeScan contract visibility rest (unknownFields ++ [fieldId], sanitizedData)
    else if !(visGet visibility fieldId == some true) then
      sanitizeScan contract visibility rest (unknownFields, sanitizedData)
    else
      sanitizeScan contract visibility rest
        (unknownFields, mapSetJson sanitizedData fieldId submittedValue)

/-- The second loop of `sanitizeAndValidateData` over the registry: required
checks for absent-like values, type validation otherwise. -/
def validateVisibleFields (P : JsPrims) (visibility : List (String × Bool))
    (sanitizedData : List (String × Json)) :
    List NormalizedFieldDefinition → List ValidationIssue → List ValidationIssue
  | [], fieldErrors => fieldErrors
  | field :: rest, fieldErrors =>
    if !(visGet visibility field.id == some true) then
      validateVisibleFields P visibility sanitizedData rest fieldErrors
    else
      let submittedValue := jLookup sanitizedData field.id
      if !isPresent submittedValue then
        if field.required then
          validateVisibleFields P visibility sanitizedData rest
            (fieldErrors ++ [⟨field.id, "Required field is missing"⟩])
        else
          validateVisibleFields P visibility sanitizedData rest fieldErrors
      else
        match validateFieldValue P field submittedValue with
        | some msg =>
          validateVisibleFields P visibility sanitizedData rest (fieldErrors ++ [⟨field.id, msg⟩])
        | none => validateVisibleFields P visibility sanitizedData rest fieldErrors

/-- Source `sanitizeAndValidateData`: compute visibility, drop invisible
keys, reject unknown keys, then validate the visible registry. -/
def sanitizeAndValidateData (P : JsPrims) (contract : NormalizedContract)
    (inputData : List (String × Json)) : SanitizeResult :=
  let visibility := evaluateVisibility P contract inputData
  let scan := sanitizeScan contract visibility inputData ([], [])
  if !scan.1.isEmpty then
    .fail
      { error := "Field validation failed"
        code := "FIELD_VALIDATION_FAILED"
        unknown_fields := some scan.1
        issues := scan.1.map (fun fieldId =>
          ⟨fieldId, "Field is not part of the published schema"⟩) }
  else
    let fieldErrors := validateVisibleFields P visibility scan.2 contract.fields []
    if !fieldErrors.isEmpty then
      .fail
        { error := "Field validation failed"
          code := "FIELD_VALIDATION_FAILED"
          unknown_fields := none
          issues := fieldErrors }
    else .ok scan.2

/-- Exact supported field type set of the source. -/
def SUPPORTED_FIELD_TYPES : List String :=
  ["text", "textarea", "email", "number", "tel", "url", "date", "datetime", "time",
   "radio", "select", "multiselect", "checkbox", "boolean", "rating"]

/-- Exact supported validation key set of the source. -/
def SUPPORTED_VALIDATION_KEYS : List String :=
  ["required", "min", "max", "minLength", "maxLength", "pattern", "options"]

/-- Exact supported operator set of the source. -/
def SUPPORTED_OPERATORS : List String :=
  ["eq", "neq", "in", "not_in", "gt", "gte", "lt", "lte",
   "contains", "not_contains", "exists", "not_exists"]

/-- Source `normalizeOperator`: alias map after lowercasing and trimming. -/
def normalizeOperator (rawOperator : String) : Option String :=
  let operator := sTrim (sToLower rawOperator)
  if operator == "=" || operator == "==" || operator == "eq" then some "eq"
  else if operator == "!=" || operator == "<>" || operator == "neq" || operator == "not_eq" then
    some "neq"
  else if operator == "gt" || operator == ">" then some "gt"
  else if operator == "gte" || operator == ">=" then some "gte"
  else if operator == "lt" || operator == "<" then some "lt"
  else if operator == "lte" || operator == "<=" then some "lte"
  else if operator == "in" then some "in"
  else if operator == "nin" || operator == "not_in" then some "not_in"
  else if operator == "contains" || operator == "includes" then some "contains"
  else if operator == "not_contains" || operator == "not_includes" then some "not_contains"
  else if operator == "exists" then some "exists"
  else if operator == "not_exists" then some "not_exists"
  else none

/-- Source `normalizeAction`: show/hide aliases plus `set_visibility` with an
explicit boolean. -/
def normalizeAction (rawType : String) (actionNode : List (String × Json)) : Option String :=
  let t := sTrim (sToLower rawType)
  if t == "show" || t == "show_field" || t == "showfield" then some "show"
  else if t == "hide" || t == "hide_field" || t == "hidefield" then some "hide"
  else if t == "set_visibility" || t == "setvisibility" then
    match readFirstDefined actionNode ["visible", "isVisible", "value"] with
    | some (.bool b) => some (if b then "show" else "hide")
    | _ => none
  else none

/-- Source `getOptionPrimitive`: a primitive, or a record from which a
primitive is extractable under the value/id/key/name aliases. -/
def getOptionPrimitive (option : Json) : Option Json :=
  if isPrimitiveValue option then some option
  else
    match option with
    | .obj fields =>
      match readFirstDefined fields ["value", "id", "key", "name"] with
      | some v => if isPrimitiveValue v then some v else none
      | _ => none
    | _ => none

/-- Extract all option primitives, failing on the first unsupported shape. -/
def normalizeOptionsList : List Json → Option (List Json)
  | [] => some []
  | option :: rest =>
    match getOptionPrimitive option with
    | none => none
    | some primitive =>
      match normalizeOptionsList rest with
      | none => none
      | some tail => some (primitive :: tail)

/-- First key of any bucket that is outside the supported validation key set
(the scan the source performs over `rules` and `validation`). -/
def findUnsupportedKey : List (List (String × Json)) → Option String
  | [] => none
  | bucket :: rest =>
    match bucket.find? (fun kv => !SUPPORTED_VALIDATION_KEYS.contains kv.1) with
    | some kv => some kv.1
    | none => findUnsupportedKey rest

/-- `Object.assign({}, ...buckets)` lookup: the last bucket containing the
key wins. -/
def assignedGet (buckets : List (List (String × Json))) (key : String) : Option Json :=
  match buckets.reverse.findSome? (fun bucket => jLookup bucket key) with
  | some v => some v
  | none => none

/-- Source `parseSupportedField`.  The source mutates a registry and an issue
list, returning after the first pushed issue; here the first issue is the
`Except.error` and the parsed field is appended by the caller. -/
def parseSupportedField (P : JsPrims) (fieldRegistry : List NormalizedFieldDefinition)
    (rawField : Json) : Except String NormalizedFieldDefinition :=
  match rawField with
  | .obj fobj =>
    match readAliasString fobj ["id", "field_id", "fieldId", "key", "name"] with
    | none => .error "Each field must include a non-empty id"
    | some fieldId =>
      if fieldRegistry.any (fun f => f.id == fieldId) then
        .error ("Duplicate field id " ++ fieldId)
      else
        match readAliasString fobj ["type", "field_type", "fieldType"] with
        | none => .error ("Field " ++ fieldId ++ " must include a non-empty type")
        | some rawType =>
          let fieldType := sToLower rawType
          if !SUPPORTED_FIELD_TYPES.contains fieldType then
            .error ("Field " ++ fieldId ++ " has unsupported type " ++ rawType)
          else
            match
              (match jLookup fobj "rules" with
               | none => Except.ok []
               | some (.obj bucket) => Except.ok [bucket]
               | some _ => Except.error ("Field " ++ fieldId ++ " has invalid rules object"))
            with
            | .error e => .error e
            | .ok rulesBuckets =>
              match
                (match jLookup fobj "validation" with
                 | none => Except.ok rulesBuckets
                 | some (.obj bucket) => Except.ok (rulesBuckets ++ [bucket])
                 | some _ =>
                   Except.error ("Field " ++ fieldId ++ " has invalid validation object"))
              with
              | .error e => .error e
              | .ok validationBuckets =>
                match findUnsupportedKey validationBuckets with
                | some badKey =>
                  .error ("Field " ++ fieldId ++ " uses unsupported validation key " ++ badKey)
                | none =>
                  let combinedGet := fun key =>
                    match assignedGet validationBuckets key with
                    | some v => some v
                    | none => jLookup fobj key
                  let requiredValue := combinedGet "required"
                  let minValue := combinedGet "min"
                  let maxValue := combinedGet "max"
                  let minLengthValue := combinedGet "minLength"
                  let maxLengthValue := combinedGet "maxLength"
                  let patternValue := combinedGet "pattern"
                  let optionsValue := combinedGet "options"
                  let hiddenValue := readFirstDefined fobj ["hidden", "isHidden"]
                  let numOk := fun (v : Option Json) =>
                    match v with
                    | none => true
                    | some (.num _) => true
                    | some _ => false
                  let boolOrAbsent := fun (v : Option Json) =>
                    match v with
                    | none => true
                    | some (.bool _) => true
                    | some _ => false
                  if !boolOrAbsent requiredValue then
                    .error ("Field " ++ fieldId ++ " has non-boolean required")
                  else if !numOk minValue then
                    .error ("Field " ++ fieldId ++ " has invalid numeric min")
                  else if !numOk maxValue then
                    .error ("Field " ++ fieldId ++ " has invalid numeric max")
                  else if !numOk minLengthValue then
                    .error ("Field " ++ fieldId ++ " has invalid numeric minLength")
                  else if !numOk maxLengthValue then
                    .error ("Field " ++ fieldId ++ " has invalid numeric maxLength")
                  else if !boolOrAbsent hiddenValue then
                    .error ("Field " ++ fieldId ++ " has non-boolean hidden")
                  else
                    match
                      (match patternValue with
                       | none => Except.ok (none : Option String)
                       | some (.str p) =>
                         if P.regexCompiles p then Except.ok (some p)
                         else Except.error ("Field " ++ fieldId ++ " has invalid regex pattern")
                       | some _ =>
                         Except.error ("Field " ++ fieldId ++ " has non-string pattern"))
                    with
                    | .error e => .error e
                    | .ok compiledPattern =>
                      match
                        (match optionsValue with
                         | none => Except.ok (none : Option (List Json))
                         | some (.arr options) =>
                           match normalizeOptionsList options with
                           | some normalized => Except.ok (some normalized)
                           | none =>
                             Except.error
                               ("Field " ++ fieldId ++ " contains unsupported option shape")
                         | some _ =>
                           Except.error ("Field " ++ fieldId ++ " has non-array options"))
                      with
                      | .error e => .error e
                      | .ok normalizedOptions =>
                        if (fieldType == "radio" || fieldType == "select"
                              || fieldType == "multiselect")
                            && (match normalizedOptions with
                                | none => true
                                | some opts => opts.isEmpty) then
                          .error ("Field " ++ fieldId ++ " type " ++ fieldType
                            ++ " requires non-empty options")
                        else
                          .ok
                            { id := fieldId
                              type := fieldType
                              defaultVisible :=
                                !(hiddenValue == some (Json.bool true))
                              required :=
                                (match requiredValue with
                                 | some (.bool b) => b
                                 | _ => false)
                              min :=
                                (match minValue with
                                 | some (.num q) => some q
                                 | _ => none)
                              max :=
                                (match maxValue with
                                 | some (.num q) => some q
                                 | _ => none)
                              minLength :=
                                (match minLengthValue with
                                 | some (.num q) => some q
                                 | _ => none)
                              maxLength :=
                                (match maxLengthValue with
                                 | some (.num q) => some q
                                 | _ => none)
                              pattern := compiledPattern
                              options := normalizedOptions }
  | _ => .error "Field entry must be an object"

/-- Registry membership used while parsing logic (same test as `fieldsHas`
but on a raw registry list). -/
def registryHas (fieldRegistry : List NormalizedFieldDefinition) (fieldId : String) : Bool :=
  fieldRegistry.any (fun f => f.id == fieldId)

/-- Source `parseConditionObject` (inner closure of `parseConditionsGroup`). -/
def parseConditionObject (fieldRegistry : List NormalizedFieldDefinition)
    (rawCondition : Json) : Except String NormalizedCondition :=
  match rawCondition with
  | .obj cobj =>
    match readAliasString cobj
        ["field_id", "fieldId", "field", "source_field_id", "sourceFieldId",
         "id", "key", "name"] with
    | none => .error "Logic condition references an unknown source field"
    | some sourceFieldId =>
      if !registryHas fieldRegistry sourceFieldId then
        .error "Logic condition references an unknown source field"
      else
        let operator :=
          match readAliasString cobj ["operator", "op"] with
          | some rawOperator => normalizeOperator rawOperator
          | none =>
            match jLookup cobj "exists" with
            | some (.bool b) => some (if b then "exists" else "not_exists")
            | _ => some "eq"
        match operator with
        | none => .error "Logic condition uses unsupported operator"
        | some op =>
          if !SUPPORTED_OPERATORS.contains op then
            .error "Logic condition uses unsupported operator"
          else
            let value := readFirstDefined cobj ["value", "equals", "expected", "target"]
            if op != "exists" && op != "not_exists" && value == none then
              .error "Logic condition must include a value for the selected operator"
            else if (op == "in" || op == "not_in")
                && !(match value with
                     | some (.arr _) => true
                     | _ => false) then
              .error "Logic condition uses in not_in with a non-array value"
            else if (op == "in" || op == "not_in")
                && (match value with
                    | some (.arr entries) => entries.any (fun e => !isPrimitiveValue e)
                    | _ => false) then
              .error "Logic condition uses in not_in with non-primitive array values"
            else if (op == "contains" || op == "not_contains")
                && !(match value with
                     | some v => isPrimitiveValue v
                     | none => false) then
              .error "Logic condition uses contains not_contains with a non-primitive value"
            else if (op == "gt" || op == "gte" || op == "lt" || op == "lte")
                && !(match value with
                     | some (.num _) => true
                     | some (.str _) => true
                     | _ => false) then
              .error "Logic condition uses ordered comparison with a non-scalar value"
            else .ok { fieldId := sourceFieldId, operator := op, value := value }
  | _ => .error "Each logic condition must be an object"

/-- Parse a list of condition objects, failing at the first faulty one. -/
def parseConditionList (fieldRegistry : List NormalizedFieldDefinition) :
    List Json → Except String (List NormalizedCondition)
  | [] => .ok []
  | c :: rest =>
    match parseConditionObject fieldRegistry c with
    | .error e => .error e
    | .ok parsed =>
      match parseConditionList fieldRegistry rest with
      | .error e => .error e
      | .ok tail => .ok (parsed :: tail)

/-- Source `parseConditionsGroup`: an array is mode `all`; an object with
`all` xor `any` lists; otherwise a single condition object (mode `all`). -/
def parseConditionsGroup (fieldRegistry : List NormalizedFieldDefinition)
    (rawConditions : Json) : Except String (String × List NormalizedCondition) :=
  match rawConditions with
  | .arr conditions =>
    match parseConditionList fieldRegistry conditions with
    | .error e => .error e
    | .ok parsed => .ok ("all", parsed)
  | .obj cobj =>
    let hasAll := (jLookup cobj "all").isSome
    let hasAny := (jLookup cobj "any").isSome
    if hasAll || hasAny then
      if hasAll && hasAny then
        .error "Logic condition block cannot define both all and any"
      else
        match (if hasAll then jLookup cobj "all" else jLookup cobj "any") with
        | some (.arr rawList) =>
          match parseConditionList fieldRegistry rawList with
          | .error e => .error e
          | .ok parsed => .ok ((if hasAll then "all" else "any"), parsed)
        | _ => .error "Logic condition list must be an array"
    else
      match parseConditionObject fieldRegistry rawConditions with
      | .error e => .error e
      | .ok single => .ok ("all", [single])
  | _ => .error "Logic condition block must be an object or array"

/-- Source `parseActionObject` (inner closure of `parseActionsBlock`). -/
def parseActionObject (fieldRegistry : List NormalizedFieldDefinition)
    (rawAction : Json) : Except String NormalizedAction :=
  match rawAction with
  | .obj aobj =>
    match readAliasString aobj ["type", "action"] with
    | none => .error "Logic action must include a type action field"
    | some actionTypeRaw =>
      match normalizeAction actionTypeRaw aobj with
      | none => .error ("Logic action type " ++ actionTypeRaw ++ " is unsupported")
      | some actionType =>
        match readAliasString aobj
            ["field_id", "fieldId", "target", "target_field_id", "targetFieldId",
             "id", "key", "name"] with
        | none => .error "Logic action references an unknown target field"
        | some targetFieldId =>
          if !registryHas fieldRegistry targetFieldId then
            .error "Logic action references an unknown target field"
          else .ok { actionType := actionType, targetFieldId := targetFieldId }
  | _ => .error "Each logic action must be an object"

/-- Parse a list of action objects, failing at the first faulty one. -/
def parseActionList (fieldRegistry : List NormalizedFieldDefinition) :
    List Json → Except String (List NormalizedAction)
  | [] => .ok []
  | a :: rest =>
    match parseActionObject fieldRegistry a with
    | .error e => .error e
    | .ok parsed =>
      match parseActionList fieldRegistry rest with
      | .error e => .error e
      | .ok tail => .ok (parsed :: tail)

/-- Source `parseActionsBlock`: an array of actions or a single action object. -/
def parseActionsBlock (fieldRegistry : List NormalizedFieldDefinition)
    (rawActions : Json) : Except String (List NormalizedAction) :=
  match rawActions with
  | .arr actions => parseActionList fieldRegistry actions
  | .obj _ =>
    match parseActionObject fieldRegistry rawActions with
    | .error e => .error e
    | .ok single => .ok [single]
  | _ => .error "Logic action block must be an object or array"

/-- The `fields` loop of `parsePublishedContract`: parse each raw field,
appending to the registry (`Map.set` appends in insertion order), stopping at
the first issue. -/
def parseFieldsList (P : JsPrims) (fieldRegistry : List NormalizedFieldDefinition) :
    List Json → Except String (List NormalizedFieldDefinition)
  | [] => .ok fieldRegistry
  | rawField :: rest =>
    match parseSupportedField P fieldRegistry rawField with
    | .error e => .error e
    | .ok nf => parseFieldsList P (fieldRegistry ++ [nf]) rest

/-- The `steps` loop of `parsePublishedContract`. -/
def parseStepsList (P : JsPrims) (fieldRegistry : List NormalizedFieldDefinition) :
    List Json → Except String (List NormalizedFieldDefinition)
  | [] => .ok fieldRegistry
  | rawStep :: rest =>
    match rawStep with
    | .obj sobj =>
      match jLookup sobj "fields" with
      | none => parseStepsList P fieldRegistry rest
      | some (.arr stepFields) =>
        match parseFieldsList P fieldRegistry stepFields with
        | .error e => .error e
        | .ok registry => parseStepsList P registry rest
      | some _ => .error "step.fields must be an array when present"
    | _ => .error "Each step must be an object"

/-- The `logic` loop of `parsePublishedContract`: skip inactive rules, parse
conditions and actions of the rest. -/
def parseLogicList (fieldRegistry : List NormalizedFieldDefinition) :
    List Json → Except String (List NormalizedRule)
  | [] => .ok []
  | rawRule :: rest =>
    match rawRule with
    | .obj robj =>
      if jLookup robj "enabled" == some (Json.bool false)
          || jLookup robj "isActive" == some (Json.bool false) then
        parseLogicList fieldRegistry rest
      else
        match readFirstDefined robj ["if", "when", "conditions"],
            readFirstDefined robj ["then", "action", "actions"] with
        | some rawConditions, some rawActions =>
          match parseConditionsGroup fieldRegistry rawConditions with
          | .error e => .error e
          | .ok (mode, conditions) =>
            match parseActionsBlock fieldRegistry rawActions with
            | .error e => .error e
            | .ok actions =>
              match parseLogicList fieldRegistry rest with
              | .error e => .error e
              | .ok tail =>
                .ok ({ mode := mode, conditions := conditions, actions := actions } :: tail)
        | _, _ =>
          .error
            "Each logic rule must define conditions and actions"
    | _ => .error "Each logic rule must be an object"

/-- Source `parsePublishedContract`.  The source returns `ok:false` with a
list of issue strings; since it stops at the first fault the list is the
single first issue, modelled here as the `Except.error` payload. -/
def parsePublishedContract (P : JsPrims) (publishedSchema : Json) :
    Except (List String) NormalizedContract :=
  match publishedSchema with
  | .obj sobj =>
    match
      (match jLookup sobj "fields" with
       | none => Except.ok ([] : List NormalizedFieldDefinition)
       | some (.arr fs) =>
         match parseFieldsList P [] fs with
         | .error e => Except.error [e]
         | .ok registry => Except.ok registry
       | some _ => Except.error ["published_schema.fields must be an array"])
    with
    | .error issues => .error issues
    | .ok fieldRegistry =>
      match
        (match jLookup sobj "steps" with
         | none => Except.ok fieldRegistry
         | some (.arr steps) =>
           match parseStepsList P fieldRegistry steps with
           | .error e => Except.error [e]
           | .ok registry => Except.ok registry
         | some _ => Except.error ["published_schema.steps must be an array"])
      with
      | .error issues => .error issues
      | .ok registry =>
        match
          (match jLookup sobj "logic" with
           | none => Except.ok ([] : List Json)
           | some .null => Except.ok []
           | some (.arr logicEntries) => Except.ok logicEntries
           | some _ => Except.error ["published_schema.logic must be an array"])
        with
        | .error issues => .error issues
        | .ok logicEntries =>
          match parseLogicList registry logicEntries with
          | .error e => .error [e]
          | .ok normalizedRules => .ok { fields := registry, rules := normalizedRules }
  | _ => .error ["published_schema must be a JSON object"]

/-- A PostgREST RPC error object as the worker sees it. -/
structure RpcError where
  message : String
  details : Option String
  code : Option String

/-- JS `x ?? d` after an optional chain: both `undefined` and `null` fall
through to the default. -/
def jsCoalesce (v : Option Json) (d : Json) : Json :=
  match v with
  | some .null => d
  | some x => x
  | none => d

/-- Source `parseRateLimitError`: JSON-parse `message` and `details` when
they look like objects; a `details.status === 429` or a message containing
`RATE_LIMITED` maps to a 429 response, anything else to `none`. -/
def parseRateLimitError (P : JsPrims) (error : RpcError) : Option (Nat × Json) :=
  let parsedMessage :=
    if sStartsWith (sTrim error.message) "\x7b" then P.jsonParse error.message else none
  let parsedDetails :=
    match error.details with
    | some d => if sStartsWith (sTrim d) "\x7b" then P.jsonParse d else none
    | none => none
  if (parsedDetails.bind (fun v => jGetOpt v "status")) == some (Json.num 429) then
    some (429, Json.obj
      [("error", jsCoalesce (parsedMessage.bind (fun v => jGetOpt v "message"))
          (Json.str "Too many requests. Please try again later.")),
       ("code", jsCoalesce (parsedMessage.bind (fun v => jGetOpt v "code"))
          (Json.str "RATE_LIMITED"))])
  else if jsIncludes error.message "RATE_LIMITED" then
    some (429, Json.obj
      [("error", Json.str "Too many requests. Please try again later."),
       ("code", Json.str "RATE_LIMITED")])
  else none

/-- Source `parseSubmissionRpcError`: map `submit_form` RPC error codes. -/
def parseSubmissionRpcError (error : RpcError) : Option (Nat × Json) :=
  if error.code == some "P0002" then
    some (404, Json.obj [("error", Json.str "Form not found")])
  else if error.code == some "42501" then
    some (403, Json.obj [("error", Json.str "Forbidden")])
  else if ["P0003", "P0004", "P0005", "P0006", "P0007", "P0008"].contains
      (error.code.getD "") then
    some (409, Json.obj
      [("error", Json.str "Form state conflict"), ("message", Json.str error.message)])
  else none

/-- The published form row fields the submit handler reads. -/
structure PublishedFormRowM where
  published_schema : Json
  success_message : Option String
  redirect_url : Option String

/-- The quota row returned by `get_form_submission_quota`. -/
structure QuotaRow where
  feature_key : String
  is_enabled : Bool
  limit_value : Option Rat
  current_usage : Option Rat
  workspace_id : String

/-- Collaborator results for one submit request: what each RPC of the
pipeline would return, in pipeline order.  `headerValid` is the outcome of
the zod Idempotency-Key header validation. -/
structure SubmitEnv where
  headerValid : Bool
  rateLimit : Option RpcError
  formLookup : Except RpcError (Option PublishedFormRowM)
  quotaLookup : Except RpcError (Option QuotaRow)
  submitRpc : Except RpcError (Option Json)

/-- Observable outcome of a submit request: HTTP status, JSON body, and the
`p_data` argument passed to the `submit_form` RPC when it was invoked. -/
structure SubmitOutcome where
  status : Nat
  body : Json
  submitArg : Option (List (String × Json))

/-- JSON encoding of the 422 `FIELD_VALIDATION_FAILED` payload, with the key
order of the source object literals. -/
def encodeFailPayload (p : FieldValidationFailurePayload) : Json :=
  Json.obj
    ([("error", Json.str p.error), ("code", Json.str p.code)]
      ++ (match p.unknown_fields with
          | some l => [("unknown_fields", Json.arr (l.map Json.str))]
          | none => [])
      ++ [("issues", Json.arr (p.issues.map (fun i =>
            Json.obj [("field_id", Json.str i.field_id),
                      ("message", Json.str i.message)])))])

/-- The 403 plan payload shape shared by the two quota refusals. -/
def planLimitPayload (msg code : String) (current : Rat) (allowed : Option Rat) : Json :=
  Json.obj
    [("error", Json.str msg), ("code", Json.str code),
     ("feature", Json.str "max_submissions_monthly"),
     ("current", Json.num current),
     ("allowed", match allowed with | some l => Json.num l | none => Json.null),
     ("upgrade_url", Json.str "/pricing")]

/-- Json encoding of an optional string (`x ?? null` in the source). -/
def optStr : Option String → Json
  | some s => Json.str s
  | none => Json.null

/-- The tail of the submit handler after successful sanitization: quota
check, plan refusals, and the `submit_form` RPC. -/
def runnerSubmitQuotaAndPersist (env : SubmitEnv) (form : PublishedFormRowM)
    (sanitizedData : List (String × Json)) : SubmitOutcome :=
  match env.quotaLookup with
  | .error quotaError =>
    if quotaError.code == some "P0002" then
      { status := 404, body := Json.obj [("error", Json.str "Form not found")]
        submitArg := none }
    else
      { status := 500
        body := Json.obj [("error", Json.str "Failed to evaluate submission quota")]
        submitArg := none }
  | .ok none =>
    { status := 500
      body := Json.obj [("error", Json.str "Failed to evaluate submission quota")]
      submitArg := none }
  | .ok (some quota) =>
    let currentUsage := quota.current_usage.getD 0
    if !quota.is_enabled then
      { status := 403
        body := planLimitPayload "Feature disabled for current plan"
          "PLAN_FEATURE_DISABLED" currentUsage quota.limit_value
        submitArg := none }
    else if (match quota.limit_value with
             | some limitValue =>
               decide (0 ≤ limitValue) && decide (limitValue ≤ currentUsage)
             | none => false) then
      { status := 403
        body := planLimitPayload "Submission quota exceeded"
          "PLAN_LIMIT_EXCEEDED" currentUsage quota.limit_value
        submitArg := none }
    else
      match env.submitRpc with
      | .error submitError =>
        match parseSubmissionRpcError submitError with
        | some mapped =>
          { status := mapped.1, body := mapped.2, submitArg := some sanitizedData }
        | none =>
          { status := 500
            body := Json.obj [("error", Json.str "Failed to submit form")]
            submitArg := some sanitizedData }
      | .ok submissionId =>
        match submissionId with
        | some (.str sid) =>
          { status := 201
            body := Json.obj
              [("submission_id", Json.str sid),
               ("success_message", optStr form.success_message),
               ("redirect_url", optStr form.redirect_url)]
            submitArg := some sanitizedData }
        | _ =>
          { status := 500
            body := Json.obj [("error", Json.str "Failed to resolve submission ID")]
            submitArg := some sanitizedData }


/-- Source `POST /:formId/submit` handler: header validation, fail-closed
rate limit, form load, contract parse, sanitize/validate, quota, then the
`submit_form` RPC.  Zod body validation has already accepted `data`. -/
def runnerSubmit (P : JsPrims) (env : SubmitEnv) (data : List (String × Json)) :
    SubmitOutcome :=
  if !env.headerValid then
    { status := 400
      body := Json.obj [("error", Json.str "Invalid idempotency header"),
                        ("code", Json.str "FIELD_VALIDATION_FAILED")]
      submitArg := none }
  else
    match env.rateLimit with
    | some rateLimitError =>
      match parseRateLimitError P rateLimitError with
      | some mapped => { status := mapped.1, body := mapped.2, submitArg := none }
      | none =>
        { status := 500
          body := Json.obj [("error", Json.str "Failed to evaluate rate limit")]
          submitArg := none }
    | none =>
      match env.formLookup with
      | .error _ =>
        { status := 500, body := Json.obj [("error", Json.str "Failed to fetch form")]
          submitArg := none }
      | .ok none =>
        { status := 404, body := Json.obj [("error", Json.str "Form not found")]
          submitArg := none }
      | .ok (some form) =>
        match parsePublishedContract P form.published_schema with
        | .error issues =>
          { status := 422
            body := Json.obj [("error", Json.str "Unsupported form schema"),
                              ("code", Json.str "UNSUPPORTED_FORM_SCHEMA"),
                              ("issues", Json.arr (issues.map Json.str))]
            submitArg := none }
        | .ok contract =>
          match sanitizeAndValidateData P contract data with
          | .fail payload =>
            { status := 422, body := encodeFailPayload payload, submitArg := none }
          | .ok sanitizedData => runnerSubmitQuotaAndPersist env form sanitizedData

/-- JS `Number.parseInt(s, 10)`: skip leading whitespace, optional sign,
then leading decimal digits; `none` models NaN. -/
def jsParseInt (s : String) : Option Int :=
  let chars := s.toList.dropWhile Char.isWhitespace
  let signAndRest : Int × List Char :=
    match chars with
    | '-' :: rest => (-1, rest)
    | '+' :: rest => (1, rest)
    | rest => (1, rest)
  let digits := signAndRest.2.takeWhile Char.isDigit
  if digits.isEmpty then none
  else some (signAndRest.1 * (digits.foldl (fun n c => n * 10 + (c.toNat - 48)) 0 : Nat))

/-- Source `parsePositiveInt`: `parseInt(value ?? '')`, kept only when
finite and positive, else the fallback. -/
def parsePositiveInt (value : Option String) (fallback : Int) : Int :=
  match jsParseInt (value.getD "") with
  | some parsed => if parsed > 0 then parsed else fallback
  | none => fallback

/-- Source default `DEFAULT_GRACE_DAYS`. -/
def DEFAULT_GRACE_DAYS : Int := 7

/-- Source default `DEFAULT_WEBHOOK_MAX_BODY_BYTES`. -/
def DEFAULT_WEBHOOK_MAX_BODY_BYTES : Int := 262144

/-- Source `parseGraceDays` applied to the `BILLING_GRACE_DAYS` variable. -/
def parseGraceDays (billingGraceDays : Option String) : Int :=
  parsePositiveInt billingGraceDays DEFAULT_GRACE_DAYS

/-- Source `parseWebhookMaxBodyBytes` applied to
`STRIPE_WEBHOOK_MAX_BODY_BYTES`. -/
def parseWebhookMaxBodyBytes (maxBodyBytes : Option String) : Int :=
  parsePositiveInt maxBodyBytes DEFAULT_WEBHOOK_MAX_BODY_BYTES

/-- Source `isExpiredIso`: `Date.parse` finite and at or before `Date.now()`
(`now` in epoch milliseconds). -/
def isExpiredIso (P : JsPrims) (now : Int) (value : String) : Bool :=
  match P.dateParse value with
  | some timestamp => timestamp ≤ now
  | none => false

/-- A `stripe_checkout_idempotency` ledger row as the worker selects it. -/
structure CheckoutIdempotencyRow where
  idempotency_key : String
  workspace_id : String
  plan_variant_id : String
  request_fingerprint : String
  stripe_idempotency_key : String
  stripe_checkout_session_id : Option String
  stripe_checkout_session_url : Option String
  status : String
  expires_at : String

/-- A Stripe checkout session as returned by `checkout.sessions.retrieve`. -/
structure StripeSessionM where
  id : String
  url : Option String

/-- Outcome of `resolveExistingIdempotencyRow`: an HTTP response, a thrown
error (mapped to 500 by the surrounding catch), or fall-through (`null`). -/
inductive ResolveIdemOutcome where
  | respond (status : Nat) (body : Json)
  | thrown (msg : String)
  | passThrough

/-- JS truthiness of an optional string (empty string is falsy). -/
def truthyStr : Option String → Bool
  | some s => !s.data.isEmpty
  | none => false

/-- Source `resolveExistingIdempotencyRow` (checkout-session handler):
fingerprint mismatch, then expiry, then completed replay (cached URL or a
Stripe retrieve, modelled by the `retrieveSession` oracle, `none` meaning the
retrieve call threw), then in-progress conflict.  The cached-URL write-back
on the retrieve path only updates the ledger URL and is not observable here. -/
def resolveExistingIdempotencyRow (P : JsPrims) (now : Int) (requestFingerprint : String)
    (correlationId : String) (retrieveSession : String → Option StripeSessionM)
    (existingRow : Option CheckoutIdempotencyRow) : ResolveIdemOutcome :=
  match existingRow with
  | none => .passThrough
  | some row =>
    if !(row.request_fingerprint == requestFingerprint) then
      .respond 409 (Json.obj
        [("error", Json.str "Idempotency key was reused with a different request payload"),
         ("code", Json.str "IDEMPOTENCY_KEY_REUSED_WITH_DIFFERENT_PAYLOAD"),
         ("correlation_id", Json.str correlationId)])
    else if isExpiredIso P now row.expires_at then
      .respond 409 (Json.obj
        [("error", Json.str "Idempotency key is expired. Generate a new key and retry."),
         ("code", Json.str "IDEMPOTENCY_KEY_EXPIRED"),
         ("correlation_id", Json.str correlationId)])
    else if row.status == "completed" && truthyStr row.stripe_checkout_session_id then
      match row.stripe_checkout_session_id with
      | some sessionId =>
        if truthyStr row.stripe_checkout_session_url then
          match row.stripe_checkout_session_url with
          | some cachedUrl =>
            .respond 200 (Json.obj
              [("url", Json.str cachedUrl),
               ("session_id", Json.str sessionId),
               ("destination", Json.str "checkout"),
               ("idempotent_replay", Json.bool true)])
          | none => .thrown "unreachable cached url"
        else
          match retrieveSession sessionId with
          | none => .thrown "stripe checkout session retrieve failed"
          | some existingSession =>
            if !truthyStr existingSession.url then
              .thrown ("Stripe checkout session " ++ sessionId ++ " is unavailable")
            else
              match existingSession.url with
              | some url =>
                .respond 200 (Json.obj
                  [("url", Json.str url),
                   ("session_id", Json.str existingSession.id),
                   ("destination", Json.str "checkout"),
                   ("idempotent_replay", Json.bool true)])
              | none => .thrown "unreachable retrieved url"
      | none => .thrown "unreachable session id"
    else if row.status == "in_progress" then
      .respond 409 (Json.obj
        [("error", Json.str "Checkout creation is already in progress for this idempotency key"),
         ("code", Json.str "CHECKOUT_IN_PROGRESS"),
         ("correlation_id", Json.str correlationId)])
    else .passThrough

/-- A Stripe webhook event as returned by signature verification. -/
structure StripeEventM where
  id : String
  type : String

/-- What the `stripe_webhook_events` insert would return. -/
inductive WebhookInsertResult where
  | ok
  | uniqueViolation
  | otherError (msg : String)

/-- Inputs of one `POST /stripe/webhook` request: the two headers, the raw
body, the signature verification oracle (`none` = `constructEventAsync`
threw), the insert outcome, and the size-cap env variable. -/
structure WebhookEnv where
  signatureHeader : Option String
  contentLengthHeader : Option String
  payload : String
  verify : String → String → Option StripeEventM
  insertResult : WebhookInsertResult
  maxBodyBytesEnv : Option String

/-- Observable outcome of a webhook request: status, body, whether the event
insert was attempted, and the event id handed to `waitUntil` processing. -/
structure WebhookOutcome where
  status : Nat
  body : Json
  insertAttempted : Bool
  scheduled : Option String

/-- The parsed `content-length` header of the webhook handler. -/
def webhookContentLength (contentLengthHeader : Option String) : Option Int :=
  match contentLengthHeader with
  | some header => jsParseInt header
  | none => none

/-- The `contentLength !== null && isFinite && contentLength > maxBytes`
guard of the webhook handler. -/
def contentLengthExceeds (maxBytes : Int) (contentLength : Option Int) : Bool :=
  match contentLength with
  | some cl => decide (maxBytes < cl)
  | none => false

/-- Source `POST /stripe/webhook` handler. -/
def stripeWebhookPost (env : WebhookEnv) : WebhookOutcome :=
  match env.signatureHeader with
  | none =>
    { status := 400, body := Json.obj [("error", Json.str "Missing Stripe signature")]
      insertAttempted := false, scheduled := none }
  | some signature =>
    let maxBytes := parseWebhookMaxBodyBytes env.maxBodyBytesEnv
    if contentLengthExceeds maxBytes (webhookContentLength env.contentLengthHeader) then
      { status := 413, body := Json.obj [("error", Json.str "Webhook payload too large")]
        insertAttempted := false, scheduled := none }
    else
      let payloadBytes : Int := env.payload.utf8ByteSize
      if maxBytes < payloadBytes then
        { status := 413, body := Json.obj [("error", Json.str "Webhook payload too large")]
          insertAttempted := false, scheduled := none }
      else
        match env.verify env.payload signature with
        | none =>
          { status := 400, body := Json.obj [("error", Json.str "Invalid Stripe signature")]
            insertAttempted := false, scheduled := none }
        | some event =>
          match env.insertResult with
          | .uniqueViolation =>
            { status := 200
              body := Json.obj [("received", Json.bool true), ("duplicate", Json.bool true)]
              insertAttempted := true, scheduled := none }
          | .otherError _ =>
            { status := 500
              body := Json.obj [("error", Json.str "Failed to persist webhook event")]
              insertAttempted := true, scheduled := none }
          | .ok =>
            { status := 200, body := Json.obj [("received", Json.bool true)]
              insertAttempted := true, scheduled := some event.id }

/-- Source `CATALOG_CURRENCY`. -/
def CATALOG_CURRENCY : String := "usd"

/-- Source `parseLookupKey`: `formsandbox:{env}:{plan}:{interval}:usd`. -/
def parseLookupKey (lookupKey : Option String) :
    Option (String × String × String × String) :=
  match lookupKey with
  | none => none
  | some key =>
    if key.data.isEmpty then none
    else
      match sSplitOn key ":" with
      | [root, envSlug, planSlugRaw, intervalRaw, currencyRaw] =>
        if !(root == "formsandbox") then none
        else if !(planSlugRaw == "pro" || planSlugRaw == "business") then none
        else if !(intervalRaw == "monthly" || intervalRaw == "yearly") then none
        else if !(currencyRaw == CATALOG_CURRENCY) then none
        else some (envSlug, planSlugRaw, intervalRaw, currencyRaw)
      | _ => none

/-- Source `normalizeBooleanString`. -/
def normalizeBooleanString (value : Option String) : Option Bool :=
  match value with
  | none => none
  | some v =>
    if v.data.isEmpty then none
    else
      let normalized := sToLower (sTrim v)
      if normalized == "true" then some true
      else if normalized == "false" then some false
      else none

/-- A Stripe price as catalog sync reads it; `metadata` maps string keys to
string values (Stripe metadata values are strings). -/
structure StripePriceM where
  id : String
  active : Bool
  currency : String
  recurringInterval : Option String
  unit_amount : Option Int
  metadata : List (String × String)
  lookup_key : Option String
  created : Int

/-- A catalog candidate derived from one price. -/
structure CatalogCandidate where
  planSlug : String
  interval : String
  currency : String
  stripePriceId : String
  amountCents : Int
  created : Int

/-- Metadata lookup (first match). -/
def metaGet (metadata : List (String × String)) (key : String) : Option String :=
  match metadata.find? (fun kv => kv.1 == key) with
  | some kv => some kv.2
  | none => none

/-- The `metadataPlan` expression of `extractCatalogCandidate`. -/
def metadataPlanOf (metadata : List (String × String)) : Option String :=
  match metaGet metadata "plan_slug" with
  | some p => if p == "pro" || p == "business" then some p else none
  | none => none

/-- The `metadataInterval` expression of `extractCatalogCandidate`. -/
def metadataIntervalOf (metadata : List (String × String)) : Option String :=
  match metaGet metadata "interval" with
  | some i => if i == "monthly" || i == "yearly" then some i else none
  | none => none

/-- The `planSlug` expression of `extractCatalogCandidate`:
`metadataPlan ?? lookup?.planSlug ?? null`. -/
def candidatePlanSlug (metadata : List (String × String))
    (lookup : Option (String × String × String × String)) : Option String :=
  match metadataPlanOf metadata with
  | some p => some p
  | none =>
    match lookup with
    | some l => some l.2.1
    | none => none

/-- The `normalizedInterval` expression of `extractCatalogCandidate`:
`metadataInterval ?? lookup?.interval ?? interval`. -/
def candidateInterval (metadata : List (String × String))
    (lookup : Option (String × String × String × String))
    (recurringNormalized : String) : String :=
  match metadataIntervalOf metadata with
  | some i => i
  | none =>
    match lookup with
    | some l => l.2.2.1
    | none => recurringNormalized

/-- Source `extractCatalogCandidate`: filter to active recurring USD prices,
read metadata and lookup key, combine with `metadata ?? lookup` precedence,
veto on `self_serve="false"`, and require either `self_serve="true"` or a
parseable lookup key. -/
def extractCatalogCandidate (price : StripePriceM) (catalogEnv : Option String) :
    Option CatalogCandidate :=
  if !price.active || !(price.currency == CATALOG_CURRENCY) then none
  else if price.recurringInterval == none || price.unit_amount == none
      || (match price.unit_amount with
          | some amount => decide (amount < 0)
          | none => false) then none
  else
    let interval :=
      match price.recurringInterval with
      | some "month" => some "monthly"
      | some "year" => some "yearly"
      | _ => none
    match interval with
    | none => none
    | some recurringNormalized =>
      let metadataSelfServe := normalizeBooleanString (metaGet price.metadata "self_serve")
      let lookup := parseLookupKey price.lookup_key
      if (match lookup, catalogEnv with
          | some l, some env => !(l.1 == env)
          | _, _ => false) then none
      else
        let planSlug := candidatePlanSlug price.metadata lookup
        let normalizedInterval := candidateInterval price.metadata lookup recurringNormalized
        match planSlug with
        | none => none
        | some slug =>
          if metadataSelfServe == some false then none
          else if !(metadataSelfServe == some true) && lookup == none then none
          else
            some
              { planSlug := slug
                interval := normalizedInterval
                currency := CATALOG_CURRENCY
                stripePriceId := price.id
                amountCents := price.unit_amount.getD 0
                created := price.created }

/-- Source status lists for subscriptions. -/
def ENTITLED_SUBSCRIPTION_STATUSES : List String := ["active", "trialing", "past_due"]

/-- Source `MANAGEABLE_SUBSCRIPTION_STATUSES`. -/
def MANAGEABLE_SUBSCRIPTION_STATUSES : List String :=
  ["active", "trialing", "past_due", "unpaid", "paused"]

/-- Source `NON_ENTITLED_TERMINAL_STATUSES`. -/
def NON_ENTITLED_TERMINAL_STATUSES : List String := ["canceled", "unpaid", "paused"]

/-- Source `FREE_PLAN_SLUG`. -/
def FREE_PLAN_SLUG : String := "free"

/-- Source `mapStripeSubscriptionStatus`. -/
def mapStripeSubscriptionStatus (status : String) : String :=
  if status == "trialing" then "trialing"
  else if status == "active" then "active"
  else if status == "past_due" then "past_due"
  else if status == "unpaid" then "unpaid"
  else if status == "paused" then "paused"
  else if status == "incomplete" then "past_due"
  else if status == "incomplete_expired" || status == "canceled" then "canceled"
  else "past_due"

/-- Source `shouldEnsureFreeSubscription`. -/
def shouldEnsureFreeSubscription (status : String) : Bool :=
  NON_ENTITLED_TERMINAL_STATUSES.contains status

/-- Source `isUuid` (the UUID regex with version 1-5 and variant 8/9/a/b),
case-insensitive. -/
def isUuid (s : String) : Bool :=
  let isHex := fun (c : Char) =>
    c.isDigit || ('a' ≤ c && c ≤ 'f') || ('A' ≤ c && c ≤ 'F')
  match sSplitOn (sToLower s) "-" with
  | [p₁, p₂, p₃, p₄, p₅] =>
    p₁.length == 8 && p₂.length == 4 && p₃.length == 4 && p₄.length == 4 && p₅.length == 12
      && (p₁.toList.all isHex) && (p₂.toList.all isHex)
      && (p₃.toList.all isHex) && (p₄.toList.all isHex) && (p₅.toList.all isHex)
      && (match p₃.toList with
          | v :: _ => '1' ≤ v && v ≤ '5'
          | [] => false)
      && (match p₄.toList with
          | v :: _ => v == '8' || v == '9' || v == 'a' || v == 'b'
          | [] => false)
  | _ => false

/-- A `subscriptions` table row, restricted to the columns the invoice-event
path reads or writes (unmodelled columns are untouched by the claims). -/
structure SubRow where
  id : String
  workspace_id : String
  plan_id : String
  plan_variant_id : String
  status : String
  stripe_subscription_id : Option String
  stripe_customer_id : Option String
  grace_period_end : Option Int
  created_at : Int

/-- Database state the invoice-event path touches: the subscriptions table,
the `workspace_billing_customers` mapping, and the `workspaces.plan` cache. -/
structure SubDb where
  subscriptions : List SubRow
  billingCustomers : List (String × String)
  workspacePlans : List (String × String)

/-- A Stripe subscription object, restricted to what the path reads. -/
structure StripeSubscriptionM where
  id : String
  status : String
  metadata_workspace_id : Option String
  customer : Option String
  price_id : Option String

/-- Collaborator oracles of the billing pipeline: plan-variant lookup before
and after the forced catalog sync, the `plans.slug` join, the
`ensure_free_subscription_for_workspace` RPC (an opaque SQL function), and
the id the database would assign to an inserted row. -/
structure BillingOracles where
  findPlanVariantByPriceId : String → Option (String × String)
  findPlanVariantAfterSync : String → Option (String × String)
  planSlugOf : String → Option String
  ensureFree : SubDb → String → SubDb
  newRowId : String

/-- Source `fetchExistingSubscriptionByStripeId` (maybeSingle → first match). -/
def fetchExistingSubscriptionByStripeId (db : SubDb) (stripeSubscriptionId : String) :
    Option SubRow :=
  db.subscriptions.find? (fun r => r.stripe_subscription_id == some stripeSubscriptionId)

/-- `order by created_at desc limit 1` over a row list (ties resolved to the
earlier row, matching a stable sort of the table order). -/
def latestByCreatedAt (rows : List SubRow) : Option SubRow :=
  rows.foldl
    (fun best r =>
      match best with
      | none => some r
      | some b => if r.created_at > b.created_at then some r else some b)
    none

/-- Source `resolveWorkspaceIdForSubscription`: hint → metadata → existing
row by subscription id → billing-customer mapping → latest row by customer. -/
def resolveWorkspaceIdForSubscription (db : SubDb) (subscription : StripeSubscriptionM)
    (workspaceHint : Option String) : Option String :=
  if (match workspaceHint with
      | some hint => isUuid hint
      | none => false) then workspaceHint
  else if (match subscription.metadata_workspace_id with
           | some m => isUuid m
           | none => false) then subscription.metadata_workspace_id
  else
    match fetchExistingSubscriptionByStripeId db subscription.id with
    | some existing => some existing.workspace_id
    | none =>
      match subscription.customer with
      | none => none
      | some customerId =>
        match db.billingCustomers.find? (fun kv => kv.2 == customerId) with
        | some mapping => some mapping.1
        | none =>
          match latestByCreatedAt
              (db.subscriptions.filter (fun r => r.stripe_customer_id == some customerId)) with
          | some fallback => some fallback.workspace_id
          | none => none

/-- Source `resolvePlanVariantFromSubscription`: local lookup, one forced
catalog sync and re-lookup, then the existing row's variant. -/
def resolvePlanVariantFromSubscription (o : BillingOracles)
    (subscription : StripeSubscriptionM) (existing : Option SubRow) :
    Except String (String × String) :=
  match subscription.price_id with
  | none =>
    match existing with
    | none => .error "Subscription does not include a Stripe price"
    | some e => .ok (e.plan_variant_id, e.plan_id)
  | some priceId =>
    match o.findPlanVariantByPriceId priceId with
    | some variant => .ok variant
    | none =>
      match o.findPlanVariantAfterSync priceId with
      | some variant => .ok variant
      | none =>
        match existing with
        | none => .error "CATALOG_OUT_OF_SYNC"
        | some e => .ok (e.plan_variant_id, e.plan_id)

/-- Source `refreshWorkspacePlanCache`: latest entitled subscription's plan
slug, else `free`, written to `workspaces.plan`. -/
def refreshWorkspacePlanCache (o : BillingOracles) (db : SubDb) (workspaceId : String) :
    SubDb :=
  let activeRow := latestByCreatedAt
    (db.subscriptions.filter (fun r =>
      r.workspace_id == workspaceId && ENTITLED_SUBSCRIPTION_STATUSES.contains r.status))
  let nextPlanSlug :=
    match activeRow with
    | some row => o.planSlugOf row.plan_id
    | none => none
  { db with workspacePlans :=
      db.workspacePlans.map (fun kv =>
        if kv.1 == workspaceId then (kv.1, nextPlanSlug.getD FREE_PLAN_SLUG) else kv) }

/-- Source `upsertWorkspaceSubscriptionState`: build the payload from the
Stripe subscription and update the row matched by subscription id, else the
latest entitled row, else insert.  The payload does not mention
`grace_period_end`, so that column is untouched. -/
def upsertWorkspaceSubscriptionState (o : BillingOracles) (db : SubDb)
    (workspaceId : String) (subscription : StripeSubscriptionM) (now : Int) :
    Except String (String × SubDb) :=
  let existingByStripeId := fetchExistingSubscriptionByStripeId db subscription.id
  match resolvePlanVariantFromSubscription o subscription existingByStripeId with
  | .error e => .error e
  | .ok planVariant =>
    let mappedStatus := mapStripeSubscriptionStatus subscription.status
    if !(MANAGEABLE_SUBSCRIPTION_STATUSES.contains mappedStatus
        || mappedStatus == "canceled") then
      .error ("Unsupported mapped subscription status " ++ mappedStatus)
    else
      let applyPayload := fun (r : SubRow) =>
        { r with
            workspace_id := workspaceId
            plan_id := planVariant.2
            plan_variant_id := planVariant.1
            status := mappedStatus
            stripe_subscription_id := some subscription.id
            stripe_customer_id := subscription.customer }
      let insertRow : SubRow :=
        { id := o.newRowId
          workspace_id := workspaceId
          plan_id := planVariant.2
          plan_variant_id := planVariant.1
          status := mappedStatus
          stripe_subscription_id := some subscription.id
          stripe_customer_id := subscription.customer
          grace_period_end := none
          created_at := now }
      match existingByStripeId with
      | some existing =>
        .ok (mappedStatus,
          { db with subscriptions :=
              db.subscriptions.map (fun r =>
                if r.id == existing.id then applyPayload r else r) })
      | none =>
        if ENTITLED_SUBSCRIPTION_STATUSES.contains mappedStatus then
          match latestByCreatedAt
              (db.subscriptions.filter (fun r =>
                r.workspace_id == workspaceId
                  && ENTITLED_SUBSCRIPTION_STATUSES.contains r.status)) with
          | some entitled =>
            .ok (mappedStatus,
              { db with subscriptions :=
                  db.subscriptions.map (fun r =>
                    if r.id == entitled.id then applyPayload r else r) })
          | none =>
            .ok (mappedStatus, { db with subscriptions := db.subscriptions ++ [insertRow] })
        else
          .ok (mappedStatus, { db with subscriptions := db.subscriptions ++ [insertRow] })

/-- Source `syncSubscriptionFromStripe`. -/
def syncSubscriptionFromStripe (o : BillingOracles) (now : Int) (db : SubDb)
    (subscription : StripeSubscriptionM) (workspaceHint : Option String) :
    Except String (String × SubDb) :=
  match resolveWorkspaceIdForSubscription db subscription workspaceHint with
  | none =>
    .error ("Unable to resolve workspace for Stripe subscription " ++ subscription.id)
  | some workspaceId =>
    match upsertWorkspaceSubscriptionState o db workspaceId subscription now with
    | .error e => .error e
    | .ok (mappedStatus, db₁) =>
      let db₂ :=
        if shouldEnsureFreeSubscription mappedStatus then o.ensureFree db₁ workspaceId
        else db₁
      .ok (workspaceId, refreshWorkspacePlanCache o db₂ workspaceId)

/-- Source `setGracePeriodForSubscription`: update `grace_period_end` on all
rows with the given Stripe subscription id, then refresh the plan cache of
the first updated row's workspace. -/
def setGracePeriodForSubscription (o : BillingOracles) (db : SubDb)
    (stripeSubscriptionId : String) (gracePeriodEnd : Option Int) : SubDb :=
  let db₁ :=
    { db with subscriptions :=
        db.subscriptions.map (fun r =>
          if r.stripe_subscription_id == some stripeSubscriptionId then
            { r with grace_period_end := gracePeriodEnd }
          else r) }
  match (db.subscriptions.filter
      (fun r => r.stripe_subscription_id == some stripeSubscriptionId)).head? with
  | some row => refreshWorkspacePlanCache o db₁ row.workspace_id
  | none => db₁

/-- A Stripe invoice, flattened to the subscription reference the source
extracts (`parent.subscription_details.subscription`, then the legacy
`subscription` field; expanded objects contribute their `id`). -/
structure InvoiceM where
  parent_subscription : Option String
  legacy_subscription : Option String

/-- Source `getInvoiceSubscriptionId`. -/
def getInvoiceSubscriptionId (invoice : InvoiceM) : Option String :=
  match invoice.parent_subscription with
  | some modern => some modern
  | none => invoice.legacy_subscription

/-- The `invoice.payment_failed` / `invoice.paid` branch of
`processStripeEvent`: retrieve the subscription (oracle; `none` = the Stripe
call threw), sync it, then set or clear the grace period.  Other event types
are outside this model and leave the database unchanged. -/
def processInvoiceStripeEvent (o : BillingOracles)
    (retrieve : String → Option StripeSubscriptionM) (now : Int)
    (billingGraceDays : Option String) (eventType : String) (invoice : InvoiceM)
    (db : SubDb) : Except String SubDb :=
  if eventType == "invoice.payment_failed" || eventType == "invoice.paid" then
    match getInvoiceSubscriptionId invoice with
    | none => .ok db
    | some subscriptionId =>
      match retrieve subscriptionId with
      | none => .error "stripe.subscriptions.retrieve failed"
      | some subscription =>
        match syncSubscriptionFromStripe o now db subscription none with
        | .error e => .error e
        | .ok (_, db₁) =>
          if eventType == "invoice.payment_failed" then
            let graceDays := parseGraceDays billingGraceDays
            .ok (setGracePeriodForSubscription o db₁ subscriptionId
              (some (now + graceDays * 24 * 60 * 60 * 1000)))
          else
            .ok (setGracePeriodForSubscription o db₁ subscriptionId none)
  else .ok db

/-- Concrete host oracle for witnesses.  Each table entry equals the real JS
built-in on the inputs the concrete examples use (e.g. `Date.parse` of
`2020-01-01T00:00:00.000Z` is 1577836800000 and of `2999-01-01T00:00:00.000Z`
is 32472144000000); functions never invoked by the examples are filled with
simple total values. -/
def defaultPrims : JsPrims where
  toNumber := fun v =>
    match v with
    | some (.bool b) => some (if b then 1 else 0)
    | some .null => some 0
    | some (.str s) => if (sTrim s).data.isEmpty then some 0 else none
    | _ => none
  dateParse := fun s =>
    if s == "2020-01-01T00:00:00.000Z" then some 1577836800000
    else if s == "2999-01-01T00:00:00.000Z" then some 32472144000000
    else none
  regexCompiles := fun _ => true
  regexTest := fun _ _ => true
  urlValid := fun _ => false
  jsonParse := fun _ => none

/-- A fixed `Date.now()` for the concrete checkout examples
(2023-11-14T22:13:20Z, between the two table entries of `defaultPrims`). -/
def exampleNow : Int := 1700000000000

/-- Completed, unexpired ledger row with a cached session URL. -/
def exampleRowCompleted : CheckoutIdempotencyRow where
  idempotency_key := "11111111-1111-4111-8111-111111111111"
  workspace_id := "22222222-2222-4222-8222-222222222222"
  plan_variant_id := "var-pro-monthly"
  request_fingerprint := "fp-a"
  stripe_idempotency_key := "checkout-v1-key"
  stripe_checkout_session_id := some "cs_1"
  stripe_checkout_session_url := some "https://pay.example/cs_1"
  status := "completed"
  expires_at := "2999-01-01T00:00:00.000Z"

/-- Expired ledger row carrying fingerprint `fp-a`. -/
def exampleRowExpired : CheckoutIdempotencyRow :=
  { exampleRowCompleted with expires_at := "2020-01-01T00:00:00.000Z" }

/-- Retrieve oracle that is never consulted by the concrete examples. -/
def exampleRetrieve : String → Option StripeSessionM := fun _ => none

/-- Price whose lookup key says pro/monthly but whose metadata says
business/yearly (and is self-serve). -/
def examplePriceConflicting : StripePriceM where
  id := "price_1"
  active := true
  currency := "usd"
  recurringInterval := some "month"
  unit_amount := some 1000
  metadata := [("plan_slug", "business"), ("interval", "yearly"), ("self_serve", "true")]
  lookup_key := some "formsandbox:prod:pro:monthly:usd"
  created := 5

/-- Price vetoed by `self_serve="false"` metadata. -/
def examplePriceVetoed : StripePriceM :=
  { examplePriceConflicting with
      metadata := [("plan_slug", "pro"), ("interval", "monthly"), ("self_serve", "false")] }

/-- Published schema with a single optional text field `email`. -/
def exampleSchemaSimple : Json :=
  Json.obj [("fields", Json.arr
    [Json.obj [("id", Json.str "email"), ("type", Json.str "text")]])]

/-- Published schema with a single required text field `f`. -/
def exampleSchemaRequired : Json :=
  Json.obj [("fields", Json.arr
    [Json.obj [("id", Json.str "f"), ("type", Json.str "text"),
               ("validation", Json.obj [("required", Json.bool true)])]])]

/-- Published schema whose field carries the extra key `junk` directly on the
field object (not under `validation`/`rules`). -/
def exampleSchemaJunkDirect : Json :=
  Json.obj [("fields", Json.arr
    [Json.obj [("id", Json.str "a"), ("type", Json.str "text"), ("junk", Json.num 1)]])]

/-- Published schema whose field carries the unsupported key `junk` under its
`validation` object. -/
def exampleSchemaJunkValidation : Json :=
  Json.obj [("fields", Json.arr
    [Json.obj [("id", Json.str "a"), ("type", Json.str "text"),
               ("validation", Json.obj [("junk", Json.num 1)])]])]

/-- Published schema with a single optional text field `f`. -/
def exampleSchemaOptionalF : Json :=
  Json.obj [("fields", Json.arr
    [Json.obj [("id", Json.str "f"), ("type", Json.str "text")]])]

/-- Quota row that allows submissions. -/
def exampleQuota : QuotaRow where
  feature_key := "max_submissions_monthly"
  is_enabled := true
  limit_value := some 100
  current_usage := some 0
  workspace_id := "22222222-2222-4222-8222-222222222222"

/-- Submit environment builder: everything nominal around a given schema. -/
def exampleSubmitEnv (schema : Json) : SubmitEnv where
  headerValid := true
  rateLimit := none
  formLookup := .ok (some { published_schema := schema
                            success_message := some "Thanks"
                            redirect_url := none })
  quotaLookup := .ok (some exampleQuota)
  submitRpc := .ok (some (Json.str "33333333-3333-4333-8333-333333333333"))

/-- The RPC error of the rate-limit code-bug evaluation: not JSON-shaped and
not mentioning RATE_LIMITED. -/
def exampleRateLimitError : RpcError where
  message := "boom"
  details := none
  code := none

/-- Webhook environment: valid signature over a one-byte body, fresh event. -/
def exampleWebhookEnv : WebhookEnv where
  signatureHeader := some "t=1,v1=sig"
  contentLengthHeader := some "1"
  payload := "x"
  verify := fun payload signature =>
    if payload == "x" && signature == "t=1,v1=sig" then
      some { id := "evt_1", type := "invoice.paid" }
    else none
  insertResult := .ok
  maxBodyBytesEnv := none

/-- Workspace UUID of the invoice-event example. -/
def exampleWorkspaceId : String := "22222222-2222-4222-8222-222222222222"

/-- Subscription row that is `active` before the invoice event. -/
def exampleSubRow : SubRow where
  id := "row1"
  workspace_id := exampleWorkspaceId
  plan_id := "plan_pro"
  plan_variant_id := "var_pro_m"
  status := "active"
  stripe_subscription_id := some "sub_1"
  stripe_customer_id := some "cus_1"
  grace_period_end := none
  created_at := 0

/-- Database before the invoice event. -/
def exampleDb : SubDb where
  subscriptions := [exampleSubRow]
  billingCustomers := [(exampleWorkspaceId, "cus_1")]
  workspacePlans := [(exampleWorkspaceId, "pro")]

/-- The Stripe subscription as retrieved while processing the failed
invoice: Stripe has already moved it to `past_due`. -/
def exampleStripeSub : StripeSubscriptionM where
  id := "sub_1"
  status := "past_due"
  metadata_workspace_id := some exampleWorkspaceId
  customer := some "cus_1"
  price_id := some "price_pro_m"

/-- Billing oracles of the invoice-event example. -/
def exampleOracles : BillingOracles where
  findPlanVariantByPriceId := fun priceId =>
    if priceId == "price_pro_m" then some ("var_pro_m", "plan_pro") else none
  findPlanVariantAfterSync := fun priceId =>
    if priceId == "price_pro_m" then some ("var_pro_m", "plan_pro") else none
  planSlugOf := fun planId => if planId == "plan_pro" then some "pro" else none
  ensureFree := fun db _ => db
  newRowId := "rowNew"

/-- Stripe retrieve oracle of the invoice-event example. -/
def exampleSubRetrieve : String → Option StripeSubscriptionM :=
  fun sid => if sid == "sub_1" then some exampleStripeSub else none

/-- The invoice of the example, naming subscription `sub_1`. -/
def exampleInvoice : InvoiceM where
  parent_subscription := some "sub_1"
  legacy_subscription := none


/-- The example database right after the subscription sync of the failed
invoice (status rewritten to past_due, no grace yet). -/
def exampleDbSynced : SubDb where
  subscriptions := [{ id := "row1", workspace_id := exampleWorkspaceId,
                      plan_id := "plan_pro", plan_variant_id := "var_pro_m",
                      status := "past_due", stripe_subscription_id := some "sub_1",
                      stripe_customer_id := some "cus_1",
                      grace_period_end := none, created_at := 0 }]
  billingCustomers := [(exampleWorkspaceId, "cus_1")]
  workspacePlans := [(exampleWorkspaceId, "pro")]

/-- The example database after fully processing the failed invoice. -/
def exampleDbAfter : SubDb where
  subscriptions := [{ id := "row1", workspace_id := exampleWorkspaceId,
                      plan_id := "plan_pro", plan_variant_id := "var_pro_m",
                      status := "past_due", stripe_subscription_id := some "sub_1",
                      stripe_customer_id := some "cus_1",
                      grace_period_end := some 605800000, created_at := 0 }]
  billingCustomers := [(exampleWorkspaceId, "cus_1")]
  workspacePlans := [(exampleWorkspaceId, "pro")]

/-- Whether an `Except` result is an error. -/
def exceptIsError {e a : Type} : Except e a → Bool
  | .error _ => true
  | .ok _ => false

/-- Failure code of a sanitization result, when it failed. -/
def sanitizeFailureCode : SanitizeResult → Option String
  | .fail payload => some payload.code
  | .ok _ => none

/-- Whether a failed sanitization result carries the given issue. -/
def sanitizeFailureHasIssue (r : SanitizeResult) (x : ValidationIssue) : Bool :=
  match r with
  | .fail payload => decide (x ∈ payload.issues)
  | .ok _ => false

/-- Whether a JSON response body lists the given key in `unknown_fields`. -/
def bodyUnknownFieldsContains (body : Json) (key : String) : Bool :=
  match jGetOpt body "unknown_fields" with
  | some (.arr l) => l.contains (Json.str key)
  | _ => false

/-- Any produced catalog candidate takes its plan slug from
`candidatePlanSlug` and its interval from `candidateInterval`. -/
theorem extractCatalogCandidate_shape (price : StripePriceM) (catalogEnv : Option String)
    (cand : CatalogCandidate) (h : extractCatalogCandidate price catalogEnv = some cand) :
    candidatePlanSlug price.metadata (parseLookupKey price.lookup_key) = some cand.planSlug
    ∧ ∃ rn, cand.interval = candidateInterval price.metadata (parseLookupKey price.lookup_key) rn := by
  simp only [extractCatalogCandidate] at h
  repeat' split at h
  all_goals
    first
    | exact Option.noConfusion h
    | (injection h with h; subst h; exact ⟨by assumption, ⟨_, rfl⟩⟩)

/-- C6 counterexample: a price whose lookup key parses as pro/monthly but
whose metadata says business/yearly yields the metadata values, so the
claimed "lookup wins" precedence is false on the code. -/
theorem c6_counterexample :
    extractCatalogCandidate examplePriceConflicting (some "prod") =
      some { planSlug := "business", interval := "yearly", currency := "usd",
             stripePriceId := "price_1", amountCents := 1000, created := 5 }
    ∧ parseLookupKey examplePriceConflicting.lookup_key =
        some ("prod", "pro", "monthly", "usd") := ⟨rfl, rfl⟩

/-- C6 (amended): when a price carries both a parseable lookup key and
self-serve metadata that disagree on plan slug or interval, the candidate
takes the plan slug and interval from the metadata (metadata wins, the
lookup key only filling gaps); and `self_serve="false"` metadata still vetoes
the price. -/
theorem c6_metadata_precedence_amended :
    (∀ (price : StripePriceM) (catalogEnv : Option String) (cand : CatalogCandidate),
      extractCatalogCandidate price catalogEnv = some cand →
        (∀ mp, metadataPlanOf price.metadata = some mp → cand.planSlug = mp)
        ∧ (∀ mi, metadataIntervalOf price.metadata = some mi → cand.interval = mi))
    ∧ (∀ (price : StripePriceM) (catalogEnv : Option String),
      normalizeBooleanString (metaGet price.metadata "self_serve") = some false →
        extractCatalogCandidate price catalogEnv = none) := by
  constructor
  · intro price env cand h
    obtain ⟨hslug, rn, hint⟩ := extractCatalogCandidate_shape price env cand h
    constructor
    · intro mp hmp
      rw [show candidatePlanSlug price.metadata (parseLookupKey price.lookup_key) = some mp from
        by simp [candidatePlanSlug, hmp]] at hslug
      exact (Option.some.inj hslug).symm
    · intro mi hmi
      rw [hint]
      simp [candidateInterval, hmi]
  · intro price env hss
    simp only [extractCatalogCandidate]
    rw [hss]
    repeat' split
    all_goals first | rfl | simp_all

/-- Witness: the amended C6 theorem applied at the conflicting and vetoed
example prices. -/
theorem c6_witness :
    extractCatalogCandidate examplePriceVetoed (some "prod") = none
    ∧ ({ planSlug := "business", interval := "yearly", currency := "usd",
         stripePriceId := "price_1", amountCents := 1000, created := 5 } :
        CatalogCandidate).planSlug = "business" :=
  ⟨c6_metadata_precedence_amended.2 examplePriceVetoed (some "prod") (by decide),
   (c6_metadata_precedence_amended.1 examplePriceConflicting (some "prod") _ rfl).1
     "business" (by decide)⟩

/-- The character list of a nonempty string is nonempty. -/
theorem data_ne_nil_of_ne (s : String) (h : s ≠ "") : s.data ≠ [] :=
  fun hnil => h (by cases s; simp_all)

/-- A nonempty string is truthy. -/
theorem truthyStr_of_ne (s : String) (h : s ≠ "") : truthyStr (some s) = true := by
  match hd : s.data with
  | [] => exact absurd (by cases s; simp_all) h
  | c :: cs => simp [truthyStr, hd]

/-- C9: when the existing checkout-idempotency row is both expired and
carries a different request fingerprint, the fingerprint check runs first and
the response is 409 IDEMPOTENCY_KEY_REUSED_WITH_DIFFERENT_PAYLOAD, not
IDEMPOTENCY_KEY_EXPIRED. -/
theorem c9_fingerprint_precedes_expiry (P : JsPrims) (now : Int)
    (requestFingerprint correlationId : String)
    (retrieveSession : String → Option StripeSessionM) (row : CheckoutIdempotencyRow)
    (hfp : row.request_fingerprint ≠ requestFingerprint)
    (_hexp : isExpiredIso P now row.expires_at = true) :
    resolveExistingIdempotencyRow P now requestFingerprint correlationId retrieveSession
        (some row)
      = .respond 409 (Json.obj
          [("error", Json.str "Idempotency key was reused with a different request payload"),
           ("code", Json.str "IDEMPOTENCY_KEY_REUSED_WITH_DIFFERENT_PAYLOAD"),
           ("correlation_id", Json.str correlationId)]) := by
  simp [resolveExistingIdempotencyRow, hfp]

/-- Witness: C9 applied to the expired example row with a mismatched
fingerprint. -/
theorem c9_witness :
    resolveExistingIdempotencyRow defaultPrims exampleNow "fp-other" "corr-9"
        exampleRetrieve
        (some exampleRowExpired)
      = .respond 409 (Json.obj
          [("error", Json.str "Idempotency key was reused with a different request payload"),
           ("code", Json.str "IDEMPOTENCY_KEY_REUSED_WITH_DIFFERENT_PAYLOAD"),
           ("correlation_id", Json.str "corr-9")]) :=
  c9_fingerprint_precedes_expiry defaultPrims exampleNow "fp-other" "corr-9"
    exampleRetrieve exampleRowExpired (by decide) (by decide)

/-- C3 (amended): for a checkout-session request that finds an existing
ledger row: (1) matching fingerprint, unexpired, status completed with a
session id replays 200 with the same session id and idempotent_replay true —
from the cached URL, or from the Stripe session retrieved for that id;
(2) a differing fingerprint on an unexpired row yields 409
IDEMPOTENCY_KEY_REUSED_WITH_DIFFERENT_PAYLOAD; (3) an expired row yields 409
IDEMPOTENCY_KEY_EXPIRED only when the fingerprint matches, because the
fingerprint check runs first. -/
theorem c3_checkout_idempotency_amended (P : JsPrims) (now : Int)
    (requestFingerprint correlationId : String)
    (retrieveSession : String → Option StripeSessionM) (row : CheckoutIdempotencyRow) :
    (∀ sessionId cachedUrl,
      row.request_fingerprint = requestFingerprint →
      isExpiredIso P now row.expires_at = false →
      row.status = "completed" →
      row.stripe_checkout_session_id = some sessionId → sessionId ≠ "" →
      row.stripe_checkout_session_url = some cachedUrl → cachedUrl ≠ "" →
      resolveExistingIdempotencyRow P now requestFingerprint correlationId retrieveSession
          (some row)
        = .respond 200 (Json.obj
            [("url", Json.str cachedUrl), ("session_id", Json.str sessionId),
             ("destination", Json.str "checkout"), ("idempotent_replay", Json.bool true)]))
    ∧ (∀ sessionId url,
      row.request_fingerprint = requestFingerprint →
      isExpiredIso P now row.expires_at = false →
      row.status = "completed" →
      row.stripe_checkout_session_id = some sessionId → sessionId ≠ "" →
      row.stripe_checkout_session_url = none →
      retrieveSession sessionId = some { id := sessionId, url := some url } → url ≠ "" →
      resolveExistingIdempotencyRow P now requestFingerprint correlationId retrieveSession
          (some row)
        = .respond 200 (Json.obj
            [("url", Json.str url), ("session_id", Json.str sessionId),
             ("destination", Json.str "checkout"), ("idempotent_replay", Json.bool true)]))
    ∧ (row.request_fingerprint ≠ requestFingerprint →
      isExpiredIso P now row.expires_at = false →
      resolveExistingIdempotencyRow P now requestFingerprint correlationId retrieveSession
          (some row)
        = .respond 409 (Json.obj
            [("error", Json.str "Idempotency key was reused with a different request payload"),
             ("code", Json.str "IDEMPOTENCY_KEY_REUSED_WITH_DIFFERENT_PAYLOAD"),
             ("correlation_id", Json.str correlationId)]))
    ∧ (row.request_fingerprint = requestFingerprint →
      isExpiredIso P now row.expires_at = true →
      resolveExistingIdempotencyRow P now requestFingerprint correlationId retrieveSession
          (some row)
        = .respond 409 (Json.obj
            [("error", Json.str "Idempotency key is expired. Generate a new key and retry."),
             ("code", Json.str "IDEMPOTENCY_KEY_EXPIRED"),
             ("correlation_id", Json.str correlationId)])) := by
  refine ⟨?_, ?_, ?_, ?_⟩
  · intro sessionId cachedUrl hfp hexp hstat hsid hnz hurl hunz
    simp [resolveExistingIdempotencyRow, hfp, hexp, hstat, hsid, hurl,
      truthyStr_of_ne _ hnz, truthyStr_of_ne _ hunz]
  · intro sessionId url hfp hexp hstat hsid hnz hurl hret hunz
    simp [resolveExistingIdempotencyRow, hfp, hexp, hstat, hsid, hurl, hret,
      truthyStr_of_ne _ hnz, truthyStr_of_ne _ hunz, truthyStr,
      data_ne_nil_of_ne _ hnz, data_ne_nil_of_ne _ hunz]
  · intro hfp hexp
    simp [resolveExistingIdempotencyRow, hfp]
  · intro hfp hexp
    simp [resolveExistingIdempotencyRow, hfp, hexp]

/-- C3 counterexample: an existing row that is simultaneously expired and
carries a different fingerprint answers 409
IDEMPOTENCY_KEY_REUSED_WITH_DIFFERENT_PAYLOAD, not the 409
IDEMPOTENCY_KEY_EXPIRED the claim requires for every expired row. -/
theorem c3_counterexample :
    resolveExistingIdempotencyRow defaultPrims exampleNow "fp-a" "corr-3"
        exampleRetrieve
        (some { exampleRowExpired with request_fingerprint := "fp-other" })
      = .respond 409 (Json.obj
          [("error", Json.str "Idempotency key was reused with a different request payload"),
           ("code", Json.str "IDEMPOTENCY_KEY_REUSED_WITH_DIFFERENT_PAYLOAD"),
           ("correlation_id", Json.str "corr-3")])
    ∧ isExpiredIso defaultPrims exampleNow
        ({ exampleRowExpired with request_fingerprint := "fp-other" } :
          CheckoutIdempotencyRow).expires_at = true := ⟨rfl, by decide⟩

/-- Witness: the three amended C3 clauses applied to the completed, the
mismatched and the expired example rows. -/
theorem c3_witness :
    (resolveExistingIdempotencyRow defaultPrims exampleNow "fp-a" "corr-3a"
        exampleRetrieve (some exampleRowCompleted)
      = .respond 200 (Json.obj
          [("url", Json.str "https://pay.example/cs_1"), ("session_id", Json.str "cs_1"),
           ("destination", Json.str "checkout"), ("idempotent_replay", Json.bool true)]))
    ∧ (resolveExistingIdempotencyRow defaultPrims exampleNow "fp-a" "corr-3b"
        exampleRetrieve (some { exampleRowCompleted with request_fingerprint := "fp-b" })
      = .respond 409 (Json.obj
          [("error", Json.str "Idempotency key was reused with a different request payload"),
           ("code", Json.str "IDEMPOTENCY_KEY_REUSED_WITH_DIFFERENT_PAYLOAD"),
           ("correlation_id", Json.str "corr-3b")]))
    ∧ (resolveExistingIdempotencyRow defaultPrims exampleNow "fp-a" "corr-3c"
        exampleRetrieve (some exampleRowExpired)
      = .respond 409 (Json.obj
          [("error", Json.str "Idempotency key is expired. Generate a new key and retry."),
           ("code", Json.str "IDEMPOTENCY_KEY_EXPIRED"),
           ("correlation_id", Json.str "corr-3c")])) :=
  ⟨(c3_checkout_idempotency_amended defaultPrims exampleNow "fp-a" "corr-3a"
      exampleRetrieve exampleRowCompleted).1 "cs_1" "https://pay.example/cs_1"
      (by decide) (by decide) (by decide) (by decide) (by decide) (by decide) (by decide),
   (c3_checkout_idempotency_amended defaultPrims exampleNow "fp-a" "corr-3b"
      exampleRetrieve { exampleRowCompleted with request_fingerprint := "fp-b" }).2.2.1
      (by decide) (by decide),
   (c3_checkout_idempotency_amended defaultPrims exampleNow "fp-a" "corr-3c"
      exampleRetrieve exampleRowExpired).2.2.2 (by decide) (by decide)⟩

/-- C4: the webhook ingestion contract — missing signature gives 400;
a Content-Length or measured byte length above the configured cap gives 413
with no insert attempted; a failed signature verification gives 400 Invalid
Stripe signature; a unique violation on the event insert gives 200
received/duplicate with nothing scheduled; a successful insert schedules the
event id off the request path and answers 200 received; the cap defaults to
262144 bytes. -/
theorem c4_webhook_ingestion (env : WebhookEnv) :
    (env.signatureHeader = none →
      stripeWebhookPost env =
        { status := 400, body := Json.obj [("error", Json.str "Missing Stripe signature")]
          insertAttempted := false, scheduled := none })
    ∧ (∀ sig, env.signatureHeader = some sig →
      (contentLengthExceeds (parseWebhookMaxBodyBytes env.maxBodyBytesEnv)
          (webhookContentLength env.contentLengthHeader) = true
        ∨ parseWebhookMaxBodyBytes env.maxBodyBytesEnv < (env.payload.utf8ByteSize : Int)) →
      stripeWebhookPost env =
        { status := 413, body := Json.obj [("error", Json.str "Webhook payload too large")]
          insertAttempted := false, scheduled := none })
    ∧ (∀ sig, env.signatureHeader = some sig →
      contentLengthExceeds (parseWebhookMaxBodyBytes env.maxBodyBytesEnv)
        (webhookContentLength env.contentLengthHeader) = false →
      (env.payload.utf8ByteSize : Int) ≤ parseWebhookMaxBodyBytes env.maxBodyBytesEnv →
      env.verify env.payload sig = none →
      stripeWebhookPost env =
        { status := 400, body := Json.obj [("error", Json.str "Invalid Stripe signature")]
          insertAttempted := false, scheduled := none })
    ∧ (∀ sig event, env.signatureHeader = some sig →
      contentLengthExceeds (parseWebhookMaxBodyBytes env.maxBodyBytesEnv)
        (webhookContentLength env.contentLengthHeader) = false →
      (env.payload.utf8ByteSize : Int) ≤ parseWebhookMaxBodyBytes env.maxBodyBytesEnv →
      env.verify env.payload sig = some event →
      env.insertResult = .uniqueViolation →
      stripeWebhookPost env =
        { status := 200
          body := Json.obj [("received", Json.bool true), ("duplicate", Json.bool true)]
          insertAttempted := true, scheduled := none })
    ∧ (∀ sig event, env.signatureHeader = some sig →
      contentLengthExceeds (parseWebhookMaxBodyBytes env.maxBodyBytesEnv)
        (webhookContentLength env.contentLengthHeader) = false →
      (env.payload.utf8ByteSize : Int) ≤ parseWebhookMaxBodyBytes env.maxBodyBytesEnv →
      env.verify env.payload sig = some event →
      env.insertResult = .ok →
      stripeWebhookPost env =
        { status := 200, body := Json.obj [("received", Json.bool true)]
          insertAttempted := true, scheduled := some event.id })
    ∧ parseWebhookMaxBodyBytes none = 262144 := by
  refine ⟨?_, ?_, ?_, ?_, ?_, by decide⟩
  · intro hsig
    simp [stripeWebhookPost, hsig]
  · intro sig hsig hbig
    by_cases hcl : contentLengthExceeds (parseWebhookMaxBodyBytes env.maxBodyBytesEnv)
        (webhookContentLength env.contentLengthHeader) = true
    · simp [stripeWebhookPost, hsig, hcl]
    · rcases hbig with hb | hb
      · exact absurd hb hcl
      · simp [stripeWebhookPost, hsig, Bool.of_not_eq_true hcl, hb]
  · intro sig hsig hcl hpb hver
    simp [stripeWebhookPost, hsig, hcl, Int.not_lt.mpr hpb, hver]
  · intro sig event hsig hcl hpb hver hins
    simp [stripeWebhookPost, hsig, hcl, Int.not_lt.mpr hpb, hver, hins]
  · intro sig event hsig hcl hpb hver hins
    simp [stripeWebhookPost, hsig, hcl, Int.not_lt.mpr hpb, hver, hins]

/-- Witness: C4 applied at the example webhook environment (success path),
its duplicate variant, and the missing-signature variant. -/
theorem c4_witness :
    (stripeWebhookPost exampleWebhookEnv =
      { status := 200, body := Json.obj [("received", Json.bool true)]
        insertAttempted := true, scheduled := some "evt_1" })
    ∧ (stripeWebhookPost { exampleWebhookEnv with insertResult := .uniqueViolation } =
      { status := 200
        body := Json.obj [("received", Json.bool true), ("duplicate", Json.bool true)]
        insertAttempted := true, scheduled := none })
    ∧ (stripeWebhookPost { exampleWebhookEnv with signatureHeader := none } =
      { status := 400, body := Json.obj [("error", Json.str "Missing Stripe signature")]
        insertAttempted := false, scheduled := none }) :=
  ⟨(c4_webhook_ingestion exampleWebhookEnv).2.2.2.2.1 "t=1,v1=sig"
      { id := "evt_1", type := "invoice.paid" } rfl (by decide) (by decide) rfl rfl,
   (c4_webhook_ingestion { exampleWebhookEnv with insertResult := .uniqueViolation
      }).2.2.2.1 "t=1,v1=sig" { id := "evt_1", type := "invoice.paid" } rfl (by decide)
      (by decide) rfl rfl,
   (c4_webhook_ingestion { exampleWebhookEnv with signatureHeader := none }).1 rfl⟩

/-- C7 (code-bug evaluation): for a `check_request` RPC error that is not
machine-readable as a 429 (and does not mention RATE_LIMITED), the submit
handler answers 500 with body exactly `(error: Failed to evaluate rate
limit)` — the body has no `code` member, so the documented
RATE_LIMIT_CHECK_FAILED code is absent — and the submit_form RPC is never
invoked even though every later collaborator would have succeeded. -/
theorem c7_rate_limit_failure_evaluation :
    runnerSubmit defaultPrims
        { exampleSubmitEnv exampleSchemaSimple with rateLimit := some exampleRateLimitError }
        [("email", Json.str "hi")]
      = { status := 500
          body := Json.obj [("error", Json.str "Failed to evaluate rate limit")]
          submitArg := none }
    ∧ jGetOpt (Json.obj [("error", Json.str "Failed to evaluate rate limit")]) "code" = none
    ∧ parseRateLimitError defaultPrims exampleRateLimitError = none := ⟨rfl, rfl, rfl⟩

/-- Lookup after `Map.set`-style assignment. -/
theorem jLookup_mapSetJson (l : List (String × Json)) (k : String) (v : Json) (k' : String) :
    jLookup (mapSetJson l k v) k' = if k = k' then some v else jLookup l k' := by
  induction l with
  | nil => by_cases h : k = k' <;> simp [mapSetJson, jLookup, h]
  | cons hd tl ih =>
    obtain ⟨hk, hv⟩ := hd
    by_cases h1 : hk = k
    · subst h1
      by_cases h : hk = k' <;> simp [mapSetJson, jLookup, h]
    · have h1s : ¬k = hk := fun hh => h1 hh.symm
      by_cases h2 : hk = k'
      · subst h2
        simp [mapSetJson, jLookup, h1, h1s]
      · simp [mapSetJson, jLookup, h1, h2, ih]

/-- A successful lookup names a member of the list. -/
theorem jLookup_isSome_mem (l : List (String × Json)) (k : String)
    (h : (jLookup l k).isSome = true) : ∃ v, (k, v) ∈ l := by
  induction l with
  | nil => simp [jLookup] at h
  | cons hd tl ih =>
    obtain ⟨hk, hv⟩ := hd
    by_cases hke : hk = k
    · exact ⟨hv, by simp [hke]⟩
    · simp only [jLookup] at h
      rw [if_neg (by simpa using hke)] at h
      obtain ⟨v, hvm⟩ := ih h
      exact ⟨v, by simp [hvm]⟩

/-- A key absent from the list looks up to `none`. -/
theorem jLookup_eq_none_of_notmem (l : List (String × Json)) (k : String)
    (h : k ∉ l.map Prod.fst) : jLookup l k = none := by
  induction l with
  | nil => rfl
  | cons hd tl ih =>
    simp only [List.map_cons, List.mem_cons] at h
    push_neg at h
    simp only [jLookup]
    rw [if_neg (by simpa using fun hh => h.1 hh.symm)]
    exact ih h.2

/-- The unknown-field accumulator of `sanitizeScan` only grows. -/
theorem sanitizeScan_uf_mono (c : NormalizedContract) (vis : List (String × Bool)) :
    ∀ (l : List (String × Json)) (uf : List String) (s : List (String × Json)) (x : String),
      x ∈ uf → x ∈ (sanitizeScan c vis l (uf, s)).1 := by
  intro l
  induction l with
  | nil => intro uf s x hx; simpa [sanitizeScan] using hx
  | cons hd tl ih =>
    intro uf s x hx
    obtain ⟨hk, hv⟩ := hd
    cases hreg : fieldsHas c hk with
    | false =>
      simp only [sanitizeScan, hreg, Bool.not_false, Bool.false_eq_true, eq_self_iff_true, if_true, if_false]
      exact ih (uf ++ [hk]) s x (by simp [hx])
    | true =>
      cases hvis : (visGet vis hk == some true) with
      | false =>
        simp only [sanitizeScan, hreg, hvis, Bool.not_false, Bool.not_true, Bool.false_eq_true, eq_self_iff_true, if_true, if_false]
        exact ih uf s x hx
      | true =>
        simp only [sanitizeScan, hreg, hvis, Bool.not_false, Bool.not_true, Bool.false_eq_true, eq_self_iff_true, if_true, if_false]
        exact ih uf (mapSetJson s hk hv) x hx

/-- Every submitted key outside the registry ends up in the unknown list. -/
theorem sanitizeScan_unknown_mem (c : NormalizedContract) (vis : List (String × Bool)) :
    ∀ (l : List (String × Json)) (uf : List String) (s : List (String × Json))
      (k : String) (v : Json),
      (k, v) ∈ l → fieldsHas c k = false → k ∈ (sanitizeScan c vis l (uf, s)).1 := by
  intro l
  induction l with
  | nil => intro uf s k v hm _; simp at hm
  | cons hd tl ih =>
    intro uf s k v hm hreg
    obtain ⟨hk, hv⟩ := hd
    rcases List.mem_cons.mp hm with hhd | htl
    · injection hhd with hke hve
      subst hke
      simp only [sanitizeScan, hreg, Bool.not_false, Bool.false_eq_true, eq_self_iff_true, if_true, if_false]
      exact sanitizeScan_uf_mono c vis tl (uf ++ [k]) s k (by simp)
    · cases hr : fieldsHas c hk with
      | false =>
        simp only [sanitizeScan, hr, Bool.not_false, Bool.false_eq_true, eq_self_iff_true, if_true, if_false]
        exact ih (uf ++ [hk]) s k v htl hreg
      | true =>
        cases hvis : (visGet vis hk == some true) with
        | false =>
          simp only [sanitizeScan, hr, hvis, Bool.not_false, Bool.not_true, Bool.false_eq_true, eq_self_iff_true, if_true, if_false]
          exact ih uf s k v htl hreg
        | true =>
          simp only [sanitizeScan, hr, hvis, Bool.not_false, Bool.not_true, Bool.false_eq_true, eq_self_iff_true, if_true, if_false]
          exact ih uf (mapSetJson s hk hv) k v htl hreg

/-- With every submitted key registered, no unknown field is collected. -/
theorem sanitizeScan_all_known (c : NormalizedContract) (vis : List (String × Bool)) :
    ∀ (l : List (String × Json)) (uf : List String) (s : List (String × Json)),
      (∀ p ∈ l, fieldsHas c p.1 = true) → (sanitizeScan c vis l (uf, s)).1 = uf := by
  intro l
  induction l with
  | nil => intro uf s _; rfl
  | cons hd tl ih =>
    intro uf s hall
    obtain ⟨hk, hv⟩ := hd
    have hreg : fieldsHas c hk = true := hall (hk, hv) (by simp)
    have htl : ∀ p ∈ tl, fieldsHas c p.1 = true := fun p hp => hall p (by simp [hp])
    cases hvis : (visGet vis hk == some true) with
    | false =>
      simp only [sanitizeScan, hreg, hvis, Bool.not_false, Bool.not_true, Bool.false_eq_true, eq_self_iff_true, if_true, if_false]
      exact ih uf s htl
    | true =>
      simp only [sanitizeScan, hreg, hvis, Bool.not_false, Bool.not_true, Bool.false_eq_true, eq_self_iff_true, if_true, if_false]
      exact ih uf (mapSetJson s hk hv) htl

/-- Keys present in the sanitized accumulator come from the start state or
are registered and visible. -/
theorem sanitizeScan_lookup_isSome (c : NormalizedContract) (vis : List (String × Bool)) :
    ∀ (l : List (String × Json)) (uf : List String) (s : List (String × Json)) (k : String),
      (jLookup (sanitizeScan c vis l (uf, s)).2 k).isSome = true →
      (jLookup s k).isSome = true ∨ (fieldsHas c k = true ∧ visGet vis k = some true) := by
  intro l
  induction l with
  | nil => intro uf s k h; exact Or.inl h
  | cons hd tl ih =>
    intro uf s k h
    obtain ⟨hk, hv⟩ := hd
    cases hreg : fieldsHas c hk with
    | false =>
      simp only [sanitizeScan, hreg, Bool.not_false, Bool.false_eq_true, eq_self_iff_true, if_true, if_false] at h
      exact ih (uf ++ [hk]) s k h
    | true =>
      cases hvis : (visGet vis hk == some true) with
      | false =>
        simp only [sanitizeScan, hreg, hvis, Bool.not_false, Bool.not_true, Bool.false_eq_true, eq_self_iff_true, if_true, if_false] at h
        exact ih uf s k h
      | true =>
        simp only [sanitizeScan, hreg, hvis, Bool.not_false, Bool.not_true, Bool.false_eq_true, eq_self_iff_true, if_true, if_false] at h
        rcases ih uf (mapSetJson s hk hv) k h with hs | hrv
        · rw [jLookup_mapSetJson] at hs
          by_cases hke : hk = k
          · subst hke
            exact Or.inr ⟨hreg, eq_of_beq hvis⟩
          · rw [if_neg hke] at hs
            exact Or.inl hs
        · exact Or.inr hrv

/-- The sanitized accumulator is unchanged at keys the input never mentions. -/
theorem sanitizeScan_lookup_notmem (c : NormalizedContract) (vis : List (String × Bool)) :
    ∀ (l : List (String × Json)) (uf : List String) (s : List (String × Json)) (k : String),
      k ∉ l.map Prod.fst →
      jLookup (sanitizeScan c vis l (uf, s)).2 k = jLookup s k := by
  intro l
  induction l with
  | nil => intro uf s k _; rfl
  | cons hd tl ih =>
    intro uf s k hnm
    obtain ⟨hk, hv⟩ := hd
    simp only [List.map_cons, List.mem_cons] at hnm
    push_neg at hnm
    cases hreg : fieldsHas c hk with
    | false =>
      simp only [sanitizeScan, hreg, Bool.not_false, Bool.false_eq_true, eq_self_iff_true, if_true, if_false]
      exact ih (uf ++ [hk]) s k hnm.2
    | true =>
      cases hvis : (visGet vis hk == some true) with
      | false =>
        simp only [sanitizeScan, hreg, hvis, Bool.not_false, Bool.not_true, Bool.false_eq_true, eq_self_iff_true, if_true, if_false]
        exact ih uf s k hnm.2
      | true =>
        simp only [sanitizeScan, hreg, hvis, Bool.not_false, Bool.not_true, Bool.false_eq_true, eq_self_iff_true, if_true, if_false]
        have := ih uf (mapSetJson s hk hv) k hnm.2
        rw [jLookup_mapSetJson, if_neg (fun hh => hnm.1 hh.symm)] at this
        exact this

/-- For a registered visible key and duplicate-free input, the sanitized
accumulator looks up to the submitted value (or the start state). -/
theorem sanitizeScan_lookup_eq (c : NormalizedContract) (vis : List (String × Bool)) :
    ∀ (l : List (String × Json)) (uf : List String) (s : List (String × Json)) (k : String),
      (l.map Prod.fst).Nodup → fieldsHas c k = true → visGet vis k = some true →
      jLookup (sanitizeScan c vis l (uf, s)).2 k =
        (match jLookup l k with
         | some v => some v
         | none => jLookup s k) := by
  intro l
  induction l with
  | nil => intro uf s k _ _ _; rfl
  | cons hd tl ih =>
    intro uf s k hnd hreg hvis
    obtain ⟨hk, hv⟩ := hd
    simp only [List.map_cons, List.nodup_cons] at hnd
    by_cases hke : hk = k
    · subst hke
      have hbvis : (visGet vis hk == some true) = true := by simp [hvis]
      simp only [sanitizeScan, hreg, hbvis, Bool.not_true, Bool.false_eq_true, eq_self_iff_true, if_true, if_false]
      rw [sanitizeScan_lookup_notmem c vis tl uf (mapSetJson s hk hv) hk hnd.1]
      rw [jLookup_mapSetJson, if_pos rfl]
      simp [jLookup]
    · have hlk : jLookup ((hk, hv) :: tl) k = jLookup tl k := by
        simp only [jLookup]
        rw [if_neg (by simpa using hke)]
      rw [hlk]
      cases hr : fieldsHas c hk with
      | false =>
        simp only [sanitizeScan, hr, Bool.not_false, Bool.false_eq_true, eq_self_iff_true, if_true, if_false]
        exact ih (uf ++ [hk]) s k hnd.2 hreg hvis
      | true =>
        cases hv2 : (visGet vis hk == some true) with
        | false =>
          simp only [sanitizeScan, hr, hv2, Bool.not_false, Bool.not_true, Bool.false_eq_true, eq_self_iff_true, if_true, if_false]
          exact ih uf s k hnd.2 hreg hvis
        | true =>
          simp only [sanitizeScan, hr, hv2, Bool.not_false, Bool.not_true, Bool.false_eq_true, eq_self_iff_true, if_true, if_false]
          have := ih uf (mapSetJson s hk hv) k hnd.2 hreg hvis
          rw [jLookup_mapSetJson, if_neg hke] at this
          exact this

/-- The error accumulator of `validateVisibleFields` only grows. -/
theorem validateVisibleFields_mono (P : JsPrims) (vis : List (String × Bool))
    (s : List (String × Json)) :
    ∀ (fields : List NormalizedFieldDefinition) (errs : List ValidationIssue)
      (x : ValidationIssue),
      x ∈ errs → x ∈ validateVisibleFields P vis s fields errs := by
  intro fields
  induction fields with
  | nil => intro errs x hx; simpa [validateVisibleFields] using hx
  | cons f rest ih =>
    intro errs x hx
    simp only [validateVisibleFields]
    cases hvis : (visGet vis f.id == some true) with
    | false =>
      simp only [hvis, Bool.not_false, Bool.not_true, Bool.false_eq_true, eq_self_iff_true,
        if_true, if_false]
      exact ih errs x hx
    | true =>
      cases hpres : isPresent (jLookup s f.id) with
      | false =>
        cases hreq : f.required with
        | false =>
          simp only [hvis, hpres, hreq, Bool.not_false, Bool.not_true, Bool.false_eq_true,
            eq_self_iff_true, if_true, if_false]
          exact ih errs x hx
        | true =>
          simp only [hvis, hpres, hreq, Bool.not_false, Bool.not_true, Bool.false_eq_true,
            eq_self_iff_true, if_true, if_false]
          exact ih (errs ++ [⟨f.id, "Required field is missing"⟩]) x (by simp [hx])
      | true =>
        simp only [hvis, hpres, Bool.not_false, Bool.not_true, Bool.false_eq_true,
          eq_self_iff_true, if_true, if_false]
        cases hval : validateFieldValue P f (jLookup s f.id) with
        | none => exact ih errs x hx
        | some msg => exact ih (errs ++ [⟨f.id, msg⟩]) x (by simp [hx])

/-- A visible required field whose sanitized value is absent-like always
contributes a required-missing issue. -/
theorem validateVisibleFields_required_mem (P : JsPrims) (vis : List (String × Bool))
    (s : List (String × Json)) :
    ∀ (fields : List NormalizedFieldDefinition) (errs : List ValidationIssue)
      (f : NormalizedFieldDefinition),
      f ∈ fields → visGet vis f.id = some true → isPresent (jLookup s f.id) = false →
      f.required = true →
      (⟨f.id, "Required field is missing"⟩ : ValidationIssue) ∈
        validateVisibleFields P vis s fields errs := by
  intro fields
  induction fields with
  | nil => intro errs f hm; simp at hm
  | cons g rest ih =>
    intro errs f hm hvis hpres hreq
    rcases List.mem_cons.mp hm with rfl | htl
    · simp only [validateVisibleFields]
      have hbvis : (visGet vis f.id == some true) = true := by simp [hvis]
      simp only [hbvis, hpres, hreq, Bool.not_false, Bool.not_true, Bool.false_eq_true,
        eq_self_iff_true, if_true, if_false]
      exact validateVisibleFields_mono P vis s rest
        (errs ++ [⟨f.id, "Required field is missing"⟩])
        ⟨f.id, "Required field is missing"⟩ (by simp)
    · simp only [validateVisibleFields]
      cases hgvis : (visGet vis g.id == some true) with
      | false =>
        simp only [Bool.not_false, Bool.not_true, Bool.false_eq_true, eq_self_iff_true,
          if_true, if_false]
        exact ih errs f htl hvis hpres hreq
      | true =>
        cases hgpres : isPresent (jLookup s g.id) with
        | false =>
          cases hgreq : g.required with
          | false =>
            simp only [Bool.not_false, Bool.not_true, Bool.false_eq_true, eq_self_iff_true,
              if_true, if_false]
            exact ih errs f htl hvis hpres hreq
          | true =>
            simp only [Bool.not_false, Bool.not_true, Bool.false_eq_true, eq_self_iff_true,
              if_true, if_false]
            exact ih _ f htl hvis hpres hreq
        | true =>
          simp only [Bool.not_false, Bool.not_true, Bool.false_eq_true, eq_self_iff_true,
            if_true, if_false]
          cases hval : validateFieldValue P g (jLookup s g.id) with
          | none => exact ih errs f htl hvis hpres hreq
          | some msg => exact ih _ f htl hvis hpres hreq

/-- A field id that only labels non-required fields with absent-like values
never gains an issue. -/
theorem validateVisibleFields_skip (P : JsPrims) (vis : List (String × Bool))
    (s : List (String × Json)) :
    ∀ (fields : List NormalizedFieldDefinition) (errs : List ValidationIssue)
      (kid : String) (msg : String),
      (∀ g ∈ fields, g.id = kid →
        (g.required = false ∧ isPresent (jLookup s g.id) = false)) →
      ((⟨kid, msg⟩ : ValidationIssue) ∈ validateVisibleFields P vis s fields errs ↔
        (⟨kid, msg⟩ : ValidationIssue) ∈ errs) := by
  intro fields
  induction fields with
  | nil => intro errs kid msg _; simp [validateVisibleFields]
  | cons g rest ih =>
    intro errs kid msg hg
    have hrest : ∀ g₂ ∈ rest, g₂.id = kid →
        (g₂.required = false ∧ isPresent (jLookup s g₂.id) = false) :=
      fun g₂ h2 => hg g₂ (by simp [h2])
    simp only [validateVisibleFields]
    cases hgvis : (visGet vis g.id == some true) with
    | false =>
      simp only [Bool.not_false, Bool.not_true, Bool.false_eq_true, eq_self_iff_true,
        if_true, if_false]
      exact ih errs kid msg hrest
    | true =>
      cases hgpres : isPresent (jLookup s g.id) with
      | false =>
        cases hgreq : g.required with
        | false =>
          simp only [Bool.not_false, Bool.not_true, Bool.false_eq_true, eq_self_iff_true,
            if_true, if_false]
          exact ih errs kid msg hrest
        | true =>
          simp only [Bool.not_false, Bool.not_true, Bool.false_eq_true, eq_self_iff_true,
            if_true, if_false]
          have hne : g.id ≠ kid := fun hid =>
            by simpa [hgreq] using (hg g (by simp) hid).1
          rw [ih _ kid msg hrest]
          simp only [List.mem_append, List.mem_singleton]
          constructor
          · rintro (h | h)
            · exact h
            · rw [ValidationIssue.mk.injEq] at h
              exact absurd h.1.symm hne
          · exact fun h => Or.inl h
      | true =>
        simp only [Bool.not_false, Bool.not_true, Bool.false_eq_true, eq_self_iff_true,
          if_true, if_false]
        cases hval : validateFieldValue P g (jLookup s g.id) with
        | none => exact ih errs kid msg hrest
        | some m =>
          have hne : g.id ≠ kid := fun hid =>
            by simpa [hgpres] using (hg g (by simp) hid).2
          rw [ih _ kid msg hrest]
          simp only [List.mem_append, List.mem_singleton]
          constructor
          · rintro (h | h)
            · exact h
            · rw [ValidationIssue.mk.injEq] at h
              exact absurd h.1.symm hne
          · exact fun h => Or.inl h

/-- Keys of a successful sanitization are registered and visible. -/
theorem sanitize_ok_keys (P : JsPrims) (c : NormalizedContract)
    (input : List (String × Json)) (s' : List (String × Json))
    (h : sanitizeAndValidateData P c input = .ok s') :
    ∀ k, (jLookup s' k).isSome = true →
      fieldsHas c k = true ∧ visGet (evaluateVisibility P c input) k = some true := by
  intro k hk
  simp only [sanitizeAndValidateData] at h
  split at h
  · exact SanitizeResult.noConfusion h
  · split at h
    · exact SanitizeResult.noConfusion h
    · injection h with h
      subst h
      rcases sanitizeScan_lookup_isSome c (evaluateVisibility P c input) input [] [] k hk
        with hs | hrv
      · simp [jLookup] at hs
      · exact hrv

/-- A submitted key outside the registry forces the unknown-fields failure
payload, with that key listed. -/
theorem sanitize_unknown (P : JsPrims) (c : NormalizedContract)
    (input : List (String × Json)) (K : String)
    (hK : (jLookup input K).isSome = true) (hreg : fieldsHas c K = false) :
    ∃ l, K ∈ l ∧
      sanitizeAndValidateData P c input = .fail
        { error := "Field validation failed"
          code := "FIELD_VALIDATION_FAILED"
          unknown_fields := some l
          issues := l.map (fun fieldId =>
            ⟨fieldId, "Field is not part of the published schema"⟩) } := by
  obtain ⟨v, hvm⟩ := jLookup_isSome_mem input K hK
  have hmem := sanitizeScan_unknown_mem c (evaluateVisibility P c input) input [] [] K v hvm hreg
  refine ⟨(sanitizeScan c (evaluateVisibility P c input) input ([], [])).1, hmem, ?_⟩
  have hne : (sanitizeScan c (evaluateVisibility P c input) input ([], [])).1 ≠ [] :=
    List.ne_nil_of_mem hmem
  simp only [sanitizeAndValidateData]
  rw [if_pos]
  cases hS : (sanitizeScan c (evaluateVisibility P c input) input ([], [])).1 with
  | nil => exact absurd hS hne
  | cons a t => simp [hS]

/-- With every submitted key registered, a sanitization failure carries the
field-error issues (not the unknown-fields payload). -/
theorem sanitize_fail_issues (P : JsPrims) (c : NormalizedContract)
    (input : List (String × Json)) (payload : FieldValidationFailurePayload)
    (hkeys : ∀ p ∈ input, fieldsHas c p.1 = true)
    (h : sanitizeAndValidateData P c input = .fail payload) :
    payload.issues = validateVisibleFields P (evaluateVisibility P c input)
      (sanitizeScan c (evaluateVisibility P c input) input ([], [])).2 c.fields [] := by
  have hS1 : (sanitizeScan c (evaluateVisibility P c input) input ([], [])).1 = [] :=
    sanitizeScan_all_known c (evaluateVisibility P c input) input [] [] hkeys
  simp only [sanitizeAndValidateData, hS1] at h
  simp only [List.isEmpty_nil, Bool.not_true, Bool.false_eq_true, if_false] at h
  split at h
  · injection h with h
    subst h
    rfl
  · exact SanitizeResult.noConfusion h

/-- With every submitted key registered, any issue produced by the
field-validation loop forces the field-errors failure payload. -/
theorem sanitize_fail_of_issue (P : JsPrims) (c : NormalizedContract)
    (input : List (String × Json)) (x : ValidationIssue)
    (hkeys : ∀ p ∈ input, fieldsHas c p.1 = true)
    (hx : x ∈ validateVisibleFields P (evaluateVisibility P c input)
      (sanitizeScan c (evaluateVisibility P c input) input ([], [])).2 c.fields []) :
    ∃ payload, sanitizeAndValidateData P c input = .fail payload
      ∧ payload.code = "FIELD_VALIDATION_FAILED" ∧ x ∈ payload.issues := by
  have hS1 : (sanitizeScan c (evaluateVisibility P c input) input ([], [])).1 = [] :=
    sanitizeScan_all_known c (evaluateVisibility P c input) input [] [] hkeys
  have hne : validateVisibleFields P (evaluateVisibility P c input)
      (sanitizeScan c (evaluateVisibility P c input) input ([], [])).2 c.fields [] ≠ [] :=
    List.ne_nil_of_mem hx
  refine ⟨{ error := "Field validation failed"
            code := "FIELD_VALIDATION_FAILED"
            unknown_fields := none
            issues := validateVisibleFields P (evaluateVisibility P c input)
              (sanitizeScan c (evaluateVisibility P c input) input ([], [])).2 c.fields [] },
    ?_, rfl, hx⟩
  simp only [sanitizeAndValidateData, hS1]
  simp only [List.isEmpty_nil, Bool.not_true, Bool.false_eq_true, if_false]
  rw [if_pos]
  cases hV : validateVisibleFields P (evaluateVisibility P c input)
      (sanitizeScan c (evaluateVisibility P c input) input ([], [])).2 c.fields [] with
  | nil => exact absurd hV hne
  | cons a t => simp [hV]

/-- The quota-and-persist tail hands exactly the sanitized data to the
`submit_form` RPC, when it invokes it at all. -/
theorem runnerSubmitQuotaAndPersist_submitArg (env : SubmitEnv) (form : PublishedFormRowM)
    (sanitizedData : List (String × Json)) (d : List (String × Json))
    (h : (runnerSubmitQuotaAndPersist env form sanitizedData).submitArg = some d) :
    d = sanitizedData := by
  simp only [runnerSubmitQuotaAndPersist] at h
  repeat' split at h
  all_goals simp_all

/-- A submit request reaching a sanitization failure answers 422 with the
encoded failure payload and never invokes `submit_form`. -/
theorem runnerSubmit_sanitize_fail (P : JsPrims) (env : SubmitEnv)
    (data : List (String × Json)) (form : PublishedFormRowM)
    (contract : NormalizedContract) (payload : FieldValidationFailurePayload)
    (hhv : env.headerValid = true) (hrl : env.rateLimit = none)
    (hform : env.formLookup = .ok (some form))
    (hparse : parsePublishedContract P form.published_schema = .ok contract)
    (hsan : sanitizeAndValidateData P contract data = .fail payload) :
    runnerSubmit P env data =
      { status := 422, body := encodeFailPayload payload, submitArg := none } := by
  simp only [runnerSubmit, hhv, hrl, hform, hparse, hsan, Bool.not_true, Bool.false_eq_true,
    if_false]

/-- When `submit_form` is invoked, the pipeline went through a successful
parse and sanitization, and the handed data is the sanitized data. -/
theorem runnerSubmit_submitArg_sanitize (P : JsPrims) (env : SubmitEnv)
    (data : List (String × Json)) (d : List (String × Json))
    (h : (runnerSubmit P env data).submitArg = some d) :
    ∃ form contract, env.formLookup = .ok (some form)
      ∧ parsePublishedContract P form.published_schema = .ok contract
      ∧ sanitizeAndValidateData P contract data = .ok d := by
  cases hhv : env.headerValid with
  | false => simp [runnerSubmit, hhv] at h
  | true =>
    cases hrl : env.rateLimit with
    | some e =>
      cases hm : parseRateLimitError P e with
      | none => simp [runnerSubmit, hhv, hrl, hm] at h
      | some mapped => simp [runnerSubmit, hhv, hrl, hm] at h
    | none =>
      cases hfl : env.formLookup with
      | error e => simp [runnerSubmit, hhv, hrl, hfl] at h
      | ok oform =>
        cases oform with
        | none => simp [runnerSubmit, hhv, hrl, hfl] at h
        | some form =>
          cases hp : parsePublishedContract P form.published_schema with
          | error issues => simp [runnerSubmit, hhv, hrl, hfl, hp] at h
          | ok contract =>
            cases hs : sanitizeAndValidateData P contract data with
            | fail payload => simp [runnerSubmit, hhv, hrl, hfl, hp, hs] at h
            | ok sanitized =>
              have harg : (runnerSubmitQuotaAndPersist env form sanitized).submitArg
                  = some d := by
                simpa [runnerSubmit, hhv, hrl, hfl, hp, hs] using h
              have hd := runnerSubmitQuotaAndPersist_submitArg env form sanitized d harg
              exact ⟨form, contract, rfl, hp, hd ▸ hs⟩

/-- C1: whenever the submit handler hands data to the `submit_form` RPC, that
data is exactly the sanitization output, and every key it contains belongs to
a registered field that is visible under the rule evaluation
(`evaluateVisibility`: defaults, then matched rules in declared order);
contrapositively, any submitted key whose field ends up invisible is absent
from the persisted data. -/
theorem c1_sanitized_data_visible_keys (P : JsPrims) (env : SubmitEnv)
    (data d : List (String × Json)) (form : PublishedFormRowM)
    (contract : NormalizedContract) (k : String)
    (hform : env.formLookup = .ok (some form))
    (hparse : parsePublishedContract P form.published_schema = .ok contract)
    (h : (runnerSubmit P env data).submitArg = some d)
    (hk : (jLookup d k).isSome = true) :
    sanitizeAndValidateData P contract data = .ok d
    ∧ fieldsHas contract k = true
    ∧ visGet (evaluateVisibility P contract data) k = some true := by
  obtain ⟨form', contract', hfl', hp', hs'⟩ := runnerSubmit_submitArg_sanitize P env data d h
  rw [hform] at hfl'
  injection hfl' with hfe
  injection hfe with hfe
  subst hfe
  rw [hparse] at hp'
  injection hp' with hce
  subst hce
  obtain ⟨hreg, hvis⟩ := sanitize_ok_keys P contract data d hs' k hk
  exact ⟨hs', hreg, hvis⟩

/-- Witness: C1 applied to the simple example schema with a submitted
`email` key. -/
theorem c1_witness :
    sanitizeAndValidateData defaultPrims
        { fields := [{ id := "email", type := "text", defaultVisible := true,
                       required := false, min := none, max := none, minLength := none,
                       maxLength := none, pattern := none, options := none }]
          rules := [] }
        [("email", Json.str "hi")]
      = .ok [("email", Json.str "hi")]
    ∧ fieldsHas
        { fields := [{ id := "email", type := "text", defaultVisible := true,
                       required := false, min := none, max := none, minLength := none,
                       maxLength := none, pattern := none, options := none }]
          rules := [] } "email" = true
    ∧ visGet (evaluateVisibility defaultPrims
        { fields := [{ id := "email", type := "text", defaultVisible := true,
                       required := false, min := none, max := none, minLength := none,
                       maxLength := none, pattern := none, options := none }]
          rules := [] }
        [("email", Json.str "hi")]) "email" = some true :=
  c1_sanitized_data_visible_keys defaultPrims (exampleSubmitEnv exampleSchemaSimple)
    [("email", Json.str "hi")] [("email", Json.str "hi")]
    { published_schema := exampleSchemaSimple
      success_message := some "Thanks", redirect_url := none }
    { fields := [{ id := "email", type := "text", defaultVisible := true,
                   required := false, min := none, max := none, minLength := none,
                   maxLength := none, pattern := none, options := none }]
      rules := [] }
    "email" rfl rfl rfl rfl

/-- Mapping a member into a string array keeps it findable by `contains`. -/
theorem contains_str_of_mem (l : List String) (k : String) (h : k ∈ l) :
    (l.map Json.str).contains (Json.str k) = true := by
  induction l with
  | nil => simp at h
  | cons a t ih =>
    rcases List.mem_cons.mp h with rfl | ht
    · simp only [List.map_cons, List.contains_cons]
      have : (Json.str k == Json.str k) = true := by
        show Json.beq (Json.str k) (Json.str k) = true
        simp [Json.beq]
      rw [this, Bool.true_or]
    · simp only [List.map_cons, List.contains_cons]
      rw [ih ht, Bool.or_true]

/-- The encoded failure payload exposes its code under the `code` key. -/
theorem encodeFailPayload_code (p : FieldValidationFailurePayload) :
    jGetOpt (encodeFailPayload p) "code" = some (Json.str p.code) := by
  have h1 : (("error" : String) == "code") = false := by decide
  simp [encodeFailPayload, jGetOpt, jLookup, h1]

/-- The encoded unknown-fields payload keeps every listed key findable. -/
theorem encodeFailPayload_unknown (p : FieldValidationFailurePayload) (l : List String)
    (k : String) (hu : p.unknown_fields = some l) (hk : k ∈ l) :
    bodyUnknownFieldsContains (encodeFailPayload p) k = true := by
  have h1 : (("error" : String) == "unknown_fields") = false := by decide
  have h2 : (("code" : String) == "unknown_fields") = false := by decide
  simp only [bodyUnknownFieldsContains, encodeFailPayload, hu, jGetOpt, List.cons_append,
    List.nil_append, jLookup, h1, h2, Bool.false_eq_true, if_false]
  rw [if_pos (by decide)]
  exact contains_str_of_mem l k hk

/-- C2: a submit whose data contains a key outside the parsed registry is
answered 422 FIELD_VALIDATION_FAILED with that key listed in
`unknown_fields`, and the `submit_form` RPC is never invoked. -/
theorem c2_unknown_field_rejected (P : JsPrims) (env : SubmitEnv)
    (data : List (String × Json)) (form : PublishedFormRowM)
    (contract : NormalizedContract) (K : String)
    (hhv : env.headerValid = true) (hrl : env.rateLimit = none)
    (hform : env.formLookup = .ok (some form))
    (hparse : parsePublishedContract P form.published_schema = .ok contract)
    (hK : (jLookup data K).isSome = true)
    (hreg : fieldsHas contract K = false) :
    (runnerSubmit P env data).status = 422
    ∧ jGetOpt (runnerSubmit P env data).body "code" = some (Json.str "FIELD_VALIDATION_FAILED")
    ∧ bodyUnknownFieldsContains (runnerSubmit P env data).body K = true
    ∧ (runnerSubmit P env data).submitArg = none := by
  obtain ⟨l, hKl, hsan⟩ := sanitize_unknown P contract data K hK hreg
  have hroute := runnerSubmit_sanitize_fail P env data form contract _ hhv hrl hform hparse hsan
  rw [hroute]
  refine ⟨rfl, ?_, ?_, rfl⟩
  · exact encodeFailPayload_code _
  · exact encodeFailPayload_unknown _ l K rfl hKl

/-- Witness: C2 applied to the simple example schema with the unknown key
`junk` beside the registered `email`. -/
theorem c2_witness :
    (runnerSubmit defaultPrims (exampleSubmitEnv exampleSchemaSimple)
        [("email", Json.str "hi"), ("junk", Json.str "x")]).status = 422
    ∧ jGetOpt (runnerSubmit defaultPrims (exampleSubmitEnv exampleSchemaSimple)
        [("email", Json.str "hi"), ("junk", Json.str "x")]).body "code"
      = some (Json.str "FIELD_VALIDATION_FAILED")
    ∧ bodyUnknownFieldsContains (runnerSubmit defaultPrims
        (exampleSubmitEnv exampleSchemaSimple)
        [("email", Json.str "hi"), ("junk", Json.str "x")]).body "junk" = true
    ∧ (runnerSubmit defaultPrims (exampleSubmitEnv exampleSchemaSimple)
        [("email", Json.str "hi"), ("junk", Json.str "x")]).submitArg = none :=
  c2_unknown_field_rejected defaultPrims (exampleSubmitEnv exampleSchemaSimple)
    [("email", Json.str "hi"), ("junk", Json.str "x")]
    { published_schema := exampleSchemaSimple
      success_message := some "Thanks", redirect_url := none }
    { fields := [{ id := "email", type := "text", defaultVisible := true,
                   required := false, min := none, max := none, minLength := none,
                   maxLength := none, pattern := none, options := none }]
      rules := [] }
    "junk" rfl rfl rfl rfl rfl rfl

/-- C10 (amended): provided every submitted key is registered (otherwise the
unknown-field rejection preempts field validation), a visible required field
whose submitted value is absent-like (null, undefined, whitespace-only
string, or empty array, per `isPresent`) produces the 422
FIELD_VALIDATION_FAILED failure carrying the issue `Required field is
missing` for that field; the same absent-like values on a visible
non-required field are skipped without any type validation, so no issue is
ever recorded for that field. -/
theorem c10_absent_value_handling_amended (P : JsPrims) (env : SubmitEnv)
    (data : List (String × Json)) (form : PublishedFormRowM)
    (contract : NormalizedContract) (f : NormalizedFieldDefinition) (msg : String)
    (hhv : env.headerValid = true) (hrl : env.rateLimit = none)
    (hform : env.formLookup = .ok (some form))
    (hparse : parsePublishedContract P form.published_schema = .ok contract)
    (hkeys : ∀ p ∈ data, fieldsHas contract p.1 = true)
    (hnodup : (data.map Prod.fst).Nodup)
    (hids : (contract.fields.map NormalizedFieldDefinition.id).Nodup)
    (hf : f ∈ contract.fields)
    (hvis : visGet (evaluateVisibility P contract data) f.id = some true)
    (habs : isPresent (jLookup data f.id) = false) :
    (f.required = true →
      sanitizeFailureCode (sanitizeAndValidateData P contract data)
          = some "FIELD_VALIDATION_FAILED"
      ∧ sanitizeFailureHasIssue (sanitizeAndValidateData P contract data)
          ⟨f.id, "Required field is missing"⟩ = true
      ∧ (runnerSubmit P env data).status = 422)
    ∧ (f.required = false →
      sanitizeFailureHasIssue (sanitizeAndValidateData P contract data)
          ⟨f.id, msg⟩ = false) := by
  have hfh : fieldsHas contract f.id = true := by
    simp only [fieldsHas, List.any_eq_true]
    exact ⟨f, hf, by simp⟩
  have hlk : jLookup (sanitizeScan contract (evaluateVisibility P contract data)
      data ([], [])).2 f.id = jLookup data f.id := by
    rw [sanitizeScan_lookup_eq contract (evaluateVisibility P contract data)
      data [] [] f.id hnodup hfh hvis]
    cases hdl : jLookup data f.id with
    | none => rfl
    | some v => rfl
  have habs' : isPresent (jLookup (sanitizeScan contract
      (evaluateVisibility P contract data) data ([], [])).2 f.id) = false := by
    rw [hlk]; exact habs
  constructor
  · intro hreq
    have hmem := validateVisibleFields_required_mem P (evaluateVisibility P contract data)
      (sanitizeScan contract (evaluateVisibility P contract data) data ([], [])).2
      contract.fields [] f hf hvis habs' hreq
    obtain ⟨payload, hfail, hcode, hiss⟩ :=
      sanitize_fail_of_issue P contract data ⟨f.id, "Required field is missing"⟩ hkeys hmem
    refine ⟨?_, ?_, ?_⟩
    · rw [hfail]; simp [sanitizeFailureCode, hcode]
    · rw [hfail]; simp [sanitizeFailureHasIssue, hiss]
    · rw [runnerSubmit_sanitize_fail P env data form contract payload
        hhv hrl hform hparse hfail]
  · intro hreq
    cases hres : sanitizeAndValidateData P contract data with
    | ok s => rfl
    | fail payload =>
      have hiss := sanitize_fail_issues P contract data payload hkeys hres
      have hskip := validateVisibleFields_skip P (evaluateVisibility P contract data)
        (sanitizeScan contract (evaluateVisibility P contract data) data ([], [])).2
        contract.fields [] f.id msg
        (fun g hg hid => by
          have hgf : g = f :=
            List.inj_on_of_nodup_map hids hg hf hid
          subst hgf
          exact ⟨hreq, habs'⟩)
      simp only [sanitizeFailureHasIssue, hiss]
      rw [decide_eq_false_iff_not]
      intro hmem
      exact (List.not_mem_nil _) ((hskip).mp hmem)

/-- C10 counterexample: with required visible field `f` absent and an
unknown key `junk` submitted, the response is 422 FIELD_VALIDATION_FAILED
but its issues list only the unknown key — the claimed `Required field is
missing` issue for `f` is absent. -/
theorem c10_counterexample :
    sanitizeAndValidateData defaultPrims
        { fields := [{ id := "f", type := "text", defaultVisible := true,
                       required := true, min := none, max := none, minLength := none,
                       maxLength := none, pattern := none, options := none }]
          rules := [] }
        [("junk", Json.str "x")]
      = .fail { error := "Field validation failed", code := "FIELD_VALIDATION_FAILED",
                unknown_fields := some ["junk"],
                issues := [⟨"junk", "Field is not part of the published schema"⟩] }
    ∧ (⟨"f", "Required field is missing"⟩ : ValidationIssue)
        ∉ [(⟨"junk", "Field is not part of the published schema"⟩ : ValidationIssue)]
    ∧ isPresent (jLookup [("junk", Json.str "x")] "f") = false
    ∧ visGet (evaluateVisibility defaultPrims
        { fields := [{ id := "f", type := "text", defaultVisible := true,
                       required := true, min := none, max := none, minLength := none,
                       maxLength := none, pattern := none, options := none }]
          rules := [] }
        [("junk", Json.str "x")]) "f" = some true
    ∧ (runnerSubmit defaultPrims (exampleSubmitEnv exampleSchemaRequired)
        [("junk", Json.str "x")]).status = 422 :=
  ⟨rfl, by decide, rfl, rfl, rfl⟩

/-- Witness: the amended C10 applied to the required example field with a
whitespace-only submitted value, and to the non-required variant. -/
theorem c10_witness :
    (sanitizeFailureCode (sanitizeAndValidateData defaultPrims
        { fields := [{ id := "f", type := "text", defaultVisible := true,
                       required := true, min := none, max := none, minLength := none,
                       maxLength := none, pattern := none, options := none }]
          rules := [] }
        [("f", Json.str " ")]) = some "FIELD_VALIDATION_FAILED"
      ∧ sanitizeFailureHasIssue (sanitizeAndValidateData defaultPrims
          { fields := [{ id := "f", type := "text", defaultVisible := true,
                         required := true, min := none, max := none, minLength := none,
                         maxLength := none, pattern := none, options := none }]
            rules := [] }
          [("f", Json.str " ")]) ⟨"f", "Required field is missing"⟩ = true
      ∧ (runnerSubmit defaultPrims (exampleSubmitEnv exampleSchemaRequired)
          [("f", Json.str " ")]).status = 422)
    ∧ sanitizeFailureHasIssue (sanitizeAndValidateData defaultPrims
        { fields := [{ id := "f", type := "text", defaultVisible := true,
                       required := false, min := none, max := none, minLength := none,
                       maxLength := none, pattern := none, options := none }]
          rules := [] }
        [("f", Json.str " ")]) ⟨"f", "must be a string"⟩ = false :=
  ⟨(c10_absent_value_handling_amended defaultPrims (exampleSubmitEnv exampleSchemaRequired)
      [("f", Json.str " ")]
      { published_schema := exampleSchemaRequired
        success_message := some "Thanks", redirect_url := none }
      { fields := [{ id := "f", type := "text", defaultVisible := true,
                     required := true, min := none, max := none, minLength := none,
                     maxLength := none, pattern := none, options := none }]
        rules := [] }
      { id := "f", type := "text", defaultVisible := true,
        required := true, min := none, max := none, minLength := none,
        maxLength := none, pattern := none, options := none }
      "must be a string" rfl rfl rfl rfl
      (fun p hp => by rcases List.mem_singleton.mp hp with rfl; rfl)
      (by decide) (by decide) (List.mem_singleton.mpr rfl) rfl rfl).1 rfl,
   (c10_absent_value_handling_amended defaultPrims (exampleSubmitEnv exampleSchemaOptionalF)
      [("f", Json.str " ")]
      { published_schema := exampleSchemaOptionalF
        success_message := some "Thanks", redirect_url := none }
      { fields := [{ id := "f", type := "text", defaultVisible := true,
                     required := false, min := none, max := none, minLength := none,
                     maxLength := none, pattern := none, options := none }]
        rules := [] }
      { id := "f", type := "text", defaultVisible := true,
        required := false, min := none, max := none, minLength := none,
        maxLength := none, pattern := none, options := none }
      "must be a string" rfl rfl rfl rfl
      (fun p hp => by rcases List.mem_singleton.mp hp with rfl; rfl)
      (by decide) (by decide) (List.mem_singleton.mpr rfl) rfl rfl).2 rfl⟩

/-- Refreshing the workspace plan cache never touches subscription rows. -/
theorem refreshWorkspacePlanCache_subscriptions (o : BillingOracles) (db : SubDb)
    (w : String) : (refreshWorkspacePlanCache o db w).subscriptions = db.subscriptions := rfl

/-- Setting the grace period changes no subscription status. -/
theorem setGracePeriodForSubscription_statuses (o : BillingOracles) (db : SubDb)
    (sid : String) (g : Option Int) :
    (setGracePeriodForSubscription o db sid g).subscriptions.map SubRow.status
      = db.subscriptions.map SubRow.status := by
  have hmap : ∀ rows : List SubRow,
      (rows.map (fun r =>
        if r.stripe_subscription_id == some sid then { r with grace_period_end := g }
        else r)).map SubRow.status = rows.map SubRow.status := by
    intro rows
    induction rows with
    | nil => rfl
    | cons r t ih =>
      simp only [List.map_cons, ih]
      by_cases h : r.stripe_subscription_id = some sid
      · rw [if_pos (beq_iff_eq.mpr h)]
      · rw [if_neg (fun hb => h (beq_iff_eq.mp hb))]
  simp only [setGracePeriodForSubscription]
  split
  · rw [refreshWorkspacePlanCache_subscriptions]
    exact hmap db.subscriptions
  · exact hmap db.subscriptions

/-- After setting the grace period, every row with the given subscription id
carries the new grace value. -/
theorem setGracePeriodForSubscription_grace (o : BillingOracles) (db : SubDb)
    (sid : String) (g : Option Int) :
    ∀ r ∈ (setGracePeriodForSubscription o db sid g).subscriptions,
      r.stripe_subscription_id = some sid → r.grace_period_end = g := by
  intro r hr hsid
  have hr' : r ∈ db.subscriptions.map (fun r =>
      if r.stripe_subscription_id == some sid then { r with grace_period_end := g }
      else r) := by
    simp only [setGracePeriodForSubscription] at hr
    split at hr
    · rw [refreshWorkspacePlanCache_subscriptions] at hr
      exact hr
    · exact hr
  obtain ⟨a, ham, hae⟩ := List.mem_map.mp hr'
  by_cases ha : (a.stripe_subscription_id == some sid) = true
  · rw [if_pos ha] at hae
    rw [← hae]
  · rw [if_neg ha] at hae
    subst hae
    exact absurd (beq_iff_eq.mpr hsid) ha

/-- C5 (amended): processing `invoice.payment_failed` first syncs the
subscription from Stripe — which writes the mapped current Stripe status
over the stored status — and then sets `grace_period_end = now +
BILLING_GRACE_DAYS` (default 7 days, in ms) on every row carrying the
invoice's subscription id; the grace-period update itself changes no status
(the statuses after processing equal the statuses right after the sync). -/
theorem c5_grace_period_amended (o : BillingOracles)
    (retrieve : String → Option StripeSubscriptionM) (now : Int)
    (graceEnv : Option String) (inv : InvoiceM) (db db' dbSync : SubDb)
    (sid w : String) (sub : StripeSubscriptionM)
    (hsub : getInvoiceSubscriptionId inv = some sid)
    (hret : retrieve sid = some sub)
    (hsync : syncSubscriptionFromStripe o now db sub none = .ok (w, dbSync))
    (h : processInvoiceStripeEvent o retrieve now graceEnv "invoice.payment_failed" inv db
      = .ok db') :
    db' = setGracePeriodForSubscription o dbSync sid
        (some (now + parseGraceDays graceEnv * 24 * 60 * 60 * 1000))
    ∧ (∀ r ∈ db'.subscriptions, r.stripe_subscription_id = some sid →
        r.grace_period_end = some (now + parseGraceDays graceEnv * 24 * 60 * 60 * 1000))
    ∧ db'.subscriptions.map SubRow.status = dbSync.subscriptions.map SubRow.status
    ∧ parseGraceDays none = DEFAULT_GRACE_DAYS := by
  have hdb : db' = setGracePeriodForSubscription o dbSync sid
      (some (now + parseGraceDays graceEnv * 24 * 60 * 60 * 1000)) := by
    simp only [processInvoiceStripeEvent, hsub, hret, hsync] at h
    simp only [show (("invoice.payment_failed" == "invoice.payment_failed")
        || ("invoice.payment_failed" == "invoice.paid")) = true from by decide] at h
    simp only [show (("invoice.payment_failed" : String) == "invoice.payment_failed") = true
      from by decide] at h
    simp at h
    exact h.symm
  refine ⟨hdb, ?_, ?_, by decide⟩
  · rw [hdb]
    exact setGracePeriodForSubscription_grace o dbSync sid _
  · rw [hdb]
    exact setGracePeriodForSubscription_statuses o dbSync sid _

/-- C5 counterexample: processing `invoice.payment_failed` for a subscription
whose Stripe status is now `past_due` rewrites the stored status from
`active` to `past_due` (via the subscription sync), so the stored status
before the event differs from the one after — while the grace period is set
to now + 7 days as claimed. -/
theorem c5_counterexample :
    processInvoiceStripeEvent exampleOracles exampleSubRetrieve 1000000 none
        "invoice.payment_failed" exampleInvoice exampleDb
      = .ok exampleDbAfter
    ∧ exampleSubRow.status = "active"
    ∧ (exampleDbAfter.subscriptions.map SubRow.status) = ["past_due"]
    ∧ ("past_due" : String) ≠ "active"
    ∧ (exampleDbAfter.subscriptions.map SubRow.grace_period_end) = [some 605800000]
    ∧ (1000000 : Int) + 7 * 24 * 60 * 60 * 1000 = 605800000 :=
  ⟨rfl, rfl, rfl, by decide, rfl, by decide⟩

/-- Witness: the amended C5 applied at the concrete invoice example. -/
theorem c5_witness :
    exampleDbAfter = setGracePeriodForSubscription exampleOracles exampleDbSynced "sub_1"
        (some (1000000 + parseGraceDays none * 24 * 60 * 60 * 1000))
    ∧ exampleDbAfter.subscriptions.map SubRow.status
        = exampleDbSynced.subscriptions.map SubRow.status
    ∧ parseGraceDays none = DEFAULT_GRACE_DAYS := by
  have h := c5_grace_period_amended exampleOracles exampleSubRetrieve 1000000 none
    exampleInvoice exampleDb exampleDbAfter exampleDbSynced "sub_1" exampleWorkspaceId
    exampleStripeSub rfl rfl rfl rfl
  exact ⟨h.1, h.2.2.1, h.2.2.2⟩

/-- A bucket containing an unsupported key poisons the bucket scan. -/
theorem findUnsupportedKey_dirty (bucket : List (String × Json)) (kv : String × Json)
    (hkv : kv ∈ bucket) (hbad : SUPPORTED_VALIDATION_KEYS.contains kv.1 = false) :
    ∀ bl : List (List (String × Json)), bucket ∈ bl → findUnsupportedKey bl ≠ none := by
  intro bl
  induction bl with
  | nil => intro hm; simp at hm
  | cons b t ih =>
    intro hm hnone
    simp only [findUnsupportedKey] at hnone
    rcases hf : b.find? (fun p => !SUPPORTED_VALIDATION_KEYS.contains p.1) with _ | v
    · rw [hf] at hnone
      rcases List.mem_cons.mp hm with rfl | hmt
      · have hmem := List.find?_eq_none.mp hf kv hkv
        simp only [Bool.not_eq_true'] at hmem
        exact hmem hbad
      · exact ih hmt hnone
    · rw [hf] at hnone
      exact Option.noConfusion hnone

/-- A field object with an unsupported key under its `rules` or `validation`
object never parses successfully. -/
theorem parseSupportedField_dirty (P : JsPrims)
    (reg : List NormalizedFieldDefinition) (fobj : List (String × Json))
    (bucket : List (String × Json)) (kv : String × Json)
    (nf : NormalizedFieldDefinition)
    (hb : jLookup fobj "rules" = some (Json.obj bucket)
      ∨ jLookup fobj "validation" = some (Json.obj bucket))
    (hkv : kv ∈ bucket)
    (hbad : SUPPORTED_VALIDATION_KEYS.contains kv.1 = false) :
    parseSupportedField P reg (Json.obj fobj) ≠ .ok nf := by
  intro h
  have hdirty := findUnsupportedKey_dirty bucket kv hkv hbad
  rcases hb with hbr | hbv
  · rcases hv : jLookup fobj "validation" with _ | vv
    · simp only [parseSupportedField, hbr, hv] at h
      rcases hfk : findUnsupportedKey [bucket] with _ | k
      · exact absurd hfk (hdirty [bucket] (by simp))
      · simp only [hfk] at h
        repeat' split at h
        all_goals exact Except.noConfusion h
    · cases vv with
      | obj vb =>
        simp only [parseSupportedField, hbr, hv, List.cons_append, List.nil_append] at h
        rcases hfk : findUnsupportedKey [bucket, vb] with _ | k
        · exact absurd hfk (hdirty [bucket, vb] (by simp))
        · simp only [hfk] at h
          repeat' split at h
          all_goals exact Except.noConfusion h
      | null =>
        simp only [parseSupportedField, hbr, hv] at h
        repeat' split at h
        all_goals exact Except.noConfusion h
      | bool b =>
        simp only [parseSupportedField, hbr, hv] at h
        repeat' split at h
        all_goals exact Except.noConfusion h
      | num q =>
        simp only [parseSupportedField, hbr, hv] at h
        repeat' split at h
        all_goals exact Except.noConfusion h
      | str s =>
        simp only [parseSupportedField, hbr, hv] at h
        repeat' split at h
        all_goals exact Except.noConfusion h
      | arr a =>
        simp only [parseSupportedField, hbr, hv] at h
        repeat' split at h
        all_goals exact Except.noConfusion h
  · rcases hr : jLookup fobj "rules" with _ | rv
    · simp only [parseSupportedField, hr, hbv, List.nil_append] at h
      rcases hfk : findUnsupportedKey [bucket] with _ | k
      · exact absurd hfk (hdirty [bucket] (by simp))
      · simp only [hfk] at h
        repeat' split at h
        all_goals exact Except.noConfusion h
    · cases rv with
      | obj rb =>
        simp only [parseSupportedField, hr, hbv, List.cons_append, List.nil_append] at h
        rcases hfk : findUnsupportedKey [rb, bucket] with _ | k
        · exact absurd hfk (hdirty [rb, bucket] (by simp))
        · simp only [hfk] at h
          repeat' split at h
          all_goals exact Except.noConfusion h
      | null =>
        simp only [parseSupportedField, hr] at h
        repeat' split at h
        all_goals exact Except.noConfusion h
      | bool b =>
        simp only [parseSupportedField, hr] at h
        repeat' split at h
        all_goals exact Except.noConfusion h
      | num q =>
        simp only [parseSupportedField, hr] at h
        repeat' split at h
        all_goals exact Except.noConfusion h
      | str s =>
        simp only [parseSupportedField, hr] at h
        repeat' split at h
        all_goals exact Except.noConfusion h
      | arr a =>
        simp only [parseSupportedField, hr] at h
        repeat' split at h
        all_goals exact Except.noConfusion h

/-- A fields array containing a field with a dirty validation bucket never
parses successfully, from any starting registry. -/
theorem parseFieldsList_dirty (P : JsPrims) (fobj : List (String × Json))
    (bucket : List (String × Json)) (kv : String × Json)
    (hb : jLookup fobj "rules" = some (Json.obj bucket)
      ∨ jLookup fobj "validation" = some (Json.obj bucket))
    (hkv : kv ∈ bucket)
    (hbad : SUPPORTED_VALIDATION_KEYS.contains kv.1 = false) :
    ∀ (l : List Json) (reg reg2 : List NormalizedFieldDefinition),
      Json.obj fobj ∈ l → parseFieldsList P reg l ≠ .ok reg2 := by
  intro l
  induction l with
  | nil => intro reg reg2 hm; simp at hm
  | cons f rest ih =>
    intro reg reg2 hm h
    rcases List.mem_cons.mp hm with rfl | hmt
    · simp only [parseFieldsList] at h
      rcases hpf : parseSupportedField P reg (Json.obj fobj) with e | nf
      · rw [hpf] at h
        exact Except.noConfusion h
      · exact parseSupportedField_dirty P reg fobj bucket kv nf hb hkv hbad hpf
    · simp only [parseFieldsList] at h
      rcases hpf : parseSupportedField P reg f with e | nf
      · rw [hpf] at h
        exact Except.noConfusion h
      · rw [hpf] at h
        exact ih (reg ++ [nf]) reg2 hmt h

/-- A steps array containing a step whose fields array has a dirty field never
parses successfully, from any starting registry. -/
theorem parseStepsList_dirty (P : JsPrims) (fobj : List (String × Json))
    (bucket : List (String × Json)) (kv : String × Json)
    (hb : jLookup fobj "rules" = some (Json.obj bucket)
      ∨ jLookup fobj "validation" = some (Json.obj bucket))
    (hkv : kv ∈ bucket)
    (hbad : SUPPORTED_VALIDATION_KEYS.contains kv.1 = false)
    (stepObj : List (String × Json)) (sfs : List Json)
    (hsf : jLookup stepObj "fields" = some (Json.arr sfs))
    (hmem : Json.obj fobj ∈ sfs) :
    ∀ (steps : List Json) (reg reg2 : List NormalizedFieldDefinition),
      Json.obj stepObj ∈ steps → parseStepsList P reg steps ≠ .ok reg2 := by
  intro steps
  induction steps with
  | nil => intro reg reg2 hm; simp at hm
  | cons st rest ih =>
    intro reg reg2 hm h
    rcases List.mem_cons.mp hm with rfl | hmt
    · simp only [parseStepsList, hsf] at h
      rcases hpl : parseFieldsList P reg sfs with e | regk
      · rw [hpl] at h
        exact Except.noConfusion h
      · exact parseFieldsList_dirty P fobj bucket kv hb hkv hbad sfs reg regk hmem hpl
    · cases st with
      | obj so =>
        simp only [parseStepsList] at h
        rcases hlf : jLookup so "fields" with _ | v
        · rw [hlf] at h
          exact ih reg reg2 hmt h
        · cases v with
          | arr stepFields =>
            simp only [hlf] at h
            rcases hpl : parseFieldsList P reg stepFields with e | regk
            · rw [hpl] at h
              exact Except.noConfusion h
            · rw [hpl] at h
              exact ih regk reg2 hmt h
          | null => rw [hlf] at h; exact Except.noConfusion h
          | bool b => rw [hlf] at h; exact Except.noConfusion h
          | num q => rw [hlf] at h; exact Except.noConfusion h
          | str s => rw [hlf] at h; exact Except.noConfusion h
          | obj o => rw [hlf] at h; exact Except.noConfusion h
      | null => simp only [parseStepsList] at h; exact Except.noConfusion h
      | bool b => simp only [parseStepsList] at h; exact Except.noConfusion h
      | num q => simp only [parseStepsList] at h; exact Except.noConfusion h
      | str s => simp only [parseStepsList] at h; exact Except.noConfusion h
      | arr a => simp only [parseStepsList] at h; exact Except.noConfusion h

/-- A published schema whose fields array (directly or inside a step) contains
a field with an unsupported key under `rules` or `validation` always fails to
parse. -/
theorem parsePublishedContract_dirty (P : JsPrims) (sobj : List (String × Json))
    (fobj bucket : List (String × Json)) (kv : String × Json)
    (hb : jLookup fobj "rules" = some (Json.obj bucket)
      ∨ jLookup fobj "validation" = some (Json.obj bucket))
    (hkv : kv ∈ bucket)
    (hbad : SUPPORTED_VALIDATION_KEYS.contains kv.1 = false)
    (hloc : (∃ fs, jLookup sobj "fields" = some (Json.arr fs) ∧ Json.obj fobj ∈ fs)
      ∨ (∃ steps stepObj sfs, jLookup sobj "steps" = some (Json.arr steps)
          ∧ Json.obj stepObj ∈ steps
          ∧ jLookup stepObj "fields" = some (Json.arr sfs)
          ∧ Json.obj fobj ∈ sfs)) :
    exceptIsError (parsePublishedContract P (Json.obj sobj)) = true := by
  rcases hres : parsePublishedContract P (Json.obj sobj) with issues | c
  · rfl
  · exfalso
    rcases hloc with ⟨fs, hfl, hmem⟩ | ⟨steps, stepObj, sfs, hsl, hsm, hsf, hmem⟩
    · simp only [parsePublishedContract, hfl] at hres
      rcases hpl : parseFieldsList P [] fs with e | reg
      · rw [hpl] at hres
        exact Except.noConfusion hres
      · exact parseFieldsList_dirty P fobj bucket kv hb hkv hbad fs [] reg hmem hpl
    · rcases hfl2 : jLookup sobj "fields" with _ | fv
      · simp only [parsePublishedContract, hfl2, hsl] at hres
        rcases hps : parseStepsList P [] steps with e | reg2
        · rw [hps] at hres
          exact Except.noConfusion hres
        · exact parseStepsList_dirty P fobj bucket kv hb hkv hbad stepObj sfs hsf hmem
            steps [] reg2 hsm hps
      · cases fv with
        | arr fs2 =>
          simp only [parsePublishedContract, hfl2, hsl] at hres
          rcases hpl : parseFieldsList P [] fs2 with e | reg
          · rw [hpl] at hres
            exact Except.noConfusion hres
          · simp only [hpl] at hres
            rcases hps : parseStepsList P reg steps with e | reg2
            · rw [hps] at hres
              exact Except.noConfusion hres
            · exact parseStepsList_dirty P fobj bucket kv hb hkv hbad stepObj sfs hsf hmem
                steps reg reg2 hsm hps
        | null => simp only [parsePublishedContract, hfl2] at hres; exact Except.noConfusion hres
        | bool b => simp only [parsePublishedContract, hfl2] at hres; exact Except.noConfusion hres
        | num q => simp only [parsePublishedContract, hfl2] at hres; exact Except.noConfusion hres
        | str s => simp only [parsePublishedContract, hfl2] at hres; exact Except.noConfusion hres
        | obj o => simp only [parsePublishedContract, hfl2] at hres; exact Except.noConfusion hres

/-- C8 counterexample: the unsupported key `junk` sitting directly on the
field object (not under `validation`/`rules`) is ignored: the schema parses
and a submit succeeds with 201. -/
theorem c8_counterexample :
    SUPPORTED_VALIDATION_KEYS.contains "junk" = false
    ∧ exceptIsError (parsePublishedContract defaultPrims exampleSchemaJunkDirect) = false
    ∧ (runnerSubmit defaultPrims (exampleSubmitEnv exampleSchemaJunkDirect)
        [("a", Json.str "hi")]).status = 201 := by
  refine ⟨by decide, rfl, rfl⟩

/-- C8 (amended): a published schema containing a field object that carries a
key outside the supported validation-key set under its `validation` object or
its `rules` object — in the top-level fields array or in a step's fields
array — fails contract parsing, and every submit against that schema is
answered 422 UNSUPPORTED_FORM_SCHEMA without invoking `submit_form`.  Keys
sitting directly on the field object are not checked (see the
counterexample). -/
theorem c8_unsupported_validation_key_amended (P : JsPrims) (env : SubmitEnv)
    (data : List (String × Json)) (form : PublishedFormRowM)
    (sobj fobj bucket : List (String × Json)) (kv : String × Json)
    (hschema : form.published_schema = Json.obj sobj)
    (hb : jLookup fobj "rules" = some (Json.obj bucket)
      ∨ jLookup fobj "validation" = some (Json.obj bucket))
    (hkv : kv ∈ bucket)
    (hbad : SUPPORTED_VALIDATION_KEYS.contains kv.1 = false)
    (hloc : (∃ fs, jLookup sobj "fields" = some (Json.arr fs) ∧ Json.obj fobj ∈ fs)
      ∨ (∃ steps stepObj sfs, jLookup sobj "steps" = some (Json.arr steps)
          ∧ Json.obj stepObj ∈ steps
          ∧ jLookup stepObj "fields" = some (Json.arr sfs)
          ∧ Json.obj fobj ∈ sfs))
    (hhv : env.headerValid = true) (hrl : env.rateLimit = none)
    (hform : env.formLookup = .ok (some form)) :
    exceptIsError (parsePublishedContract P form.published_schema) = true
    ∧ (runnerSubmit P env data).status = 422
    ∧ jGetOpt (runnerSubmit P env data).body "code"
      = some (Json.str "UNSUPPORTED_FORM_SCHEMA")
    ∧ (runnerSubmit P env data).submitArg = none := by
  have herr : exceptIsError (parsePublishedContract P form.published_schema) = true := by
    rw [hschema]
    exact parsePublishedContract_dirty P sobj fobj bucket kv hb hkv hbad hloc
  refine ⟨herr, ?_⟩
  rcases hp : parsePublishedContract P form.published_schema with issues | c
  · have hroute : runnerSubmit P env data =
        { status := 422
          body := Json.obj [("error", Json.str "Unsupported form schema"),
                            ("code", Json.str "UNSUPPORTED_FORM_SCHEMA"),
                            ("issues", Json.arr (issues.map Json.str))]
          submitArg := none } := by
      simp only [runnerSubmit, hhv, hrl, hform, hp, Bool.not_true, Bool.false_eq_true,
        if_false]
    rw [hroute]
    exact ⟨rfl, rfl, rfl⟩
  · rw [hp] at herr
    exact Bool.noConfusion herr

/-- Witness: C8 (amended) applied to the example schema whose field carries
the unsupported key `junk` under `validation`. -/
theorem c8_witness :
    exceptIsError (parsePublishedContract defaultPrims exampleSchemaJunkValidation) = true
    ∧ (runnerSubmit defaultPrims (exampleSubmitEnv exampleSchemaJunkValidation)
        [("a", Json.str "hi")]).status = 422
    ∧ jGetOpt (runnerSubmit defaultPrims (exampleSubmitEnv exampleSchemaJunkValidation)
        [("a", Json.str "hi")]).body "code" = some (Json.str "UNSUPPORTED_FORM_SCHEMA")
    ∧ (runnerSubmit defaultPrims (exampleSubmitEnv exampleSchemaJunkValidation)
        [("a", Json.str "hi")]).submitArg = none :=
  c8_unsupported_validation_key_amended defaultPrims
    (exampleSubmitEnv exampleSchemaJunkValidation) [("a", Json.str "hi")]
    { published_schema := exampleSchemaJunkValidation
      success_message := some "Thanks"
      redirect_url := none }
    [("fields", Json.arr
      [Json.obj [("id", Json.str "a"), ("type", Json.str "text"),
                 ("validation", Json.obj [("junk", Json.num 1)])]])]
    [("id", Json.str "a"), ("type", Json.str "text"),
     ("validation", Json.obj [("junk", Json.num 1)])]
    [("junk", Json.num 1)]
    ("junk", Json.num 1)
    rfl
    (Or.inr rfl)
    (by simp)
    (by decide)
    (Or.inl ⟨[Json.obj [("id", Json.str "a"), ("type", Json.str "text"),
                        ("validation", Json.obj [("junk", Json.num 1)])]],
             rfl, by simp⟩)
    rfl rfl rfl
